import Mathlib

/-!
# Inertia daemon: bootstrap, route registration and token/remote helpers

A shallow embedding of `daemon/inertiad/daemon.go` (`run`, `downloadDeps`,
`dockerPull`), of `cmd/daemon.go` (`rootHandler`) and of the constants of the
test files `daemon/inertiad/auth/auth_test.go` and `common/git_test.go`.

External calls (`docker.NewEnvClient`, `os.Stat`, `crypto.GenerateCertificate`,
`auth.NewPermissionsHandler`, `http.ListenAndServeTLS`, `path.Join`) are not part
of the repository sources at hand; their results are fields of a `World` value and
every call `run` makes is recorded, in program order, in a trace of `Event`s.
-/

namespace Inertia

/-! ## Data model of `run` -/

/-- The three attachment methods of the permissions handler:
`AttachPublicHandler(Func)`, `AttachUserRestrictedHandlerFunc`,
`AttachAdminRestrictedHandlerFunc`. -/
inductive Tier where
  | public
  | user
  | admin
  deriving DecidableEq, Repr

/-- The handler values `run` passes to the attachment methods. -/
inductive RouteHandler where
  | inertiaWeb
  | gitHubWebHookHandler
  | statusHandler
  | logHandler
  | upHandler
  | downHandler
  | resetHandler
  | envHandler
  | rootOk
  deriving DecidableEq, Repr

/-- One observable action of `run`, in the order the source performs them. -/
inductive Event where
  | println (msg : String)
  | fmtPrintln (msg : String)
  | newEnvClient
  | goDownloadDeps
  | osStat (path : String)
  | generateCertificate (cert key hostPort method : String)
  | newPermissionsHandler (db host : String) (timeout : Nat)
  | attach (tier : Tier) (path : String) (h : RouteHandler)
  | listenAndServeTLS (addr cert key : String)
  | handlerClose
  deriving DecidableEq, Repr

/-- What a path holds and how `os.Stat` answers for it: a file that `os.Stat`
finds; nothing, with a not-exist error; or a path `os.Stat` fails on with another
error (a component of the path is not a directory, permission denied, I/O error),
where a file may or may not be there. -/
inductive Entry where
  | file (content : String)
  | notExist
  | statFails (content : Option String)
  deriving DecidableEq, Repr

/-- The content of the file an entry holds, `none` when there is no file. -/
def Entry.content : Entry → Option String
  | Entry.file c => some c
  | Entry.notExist => none
  | Entry.statFails c => c

/-- File system: the entry of every path. -/
abbrev FS := String → Entry

/-- The file at a path, `none` when it is missing. -/
def fileAt (fs : FS) (path : String) : Option String := (fs path).content

/-- Error of `os.Stat` as far as `run` looks at it: a not-exist error, or any
other error. -/
inductive StatError where
  | notExist
  | other
  deriving DecidableEq, Repr

/-- Model of `os.Stat(path)`: the error it returns (`none` for `nil`). -/
def osStat (fs : FS) (path : String) : Option StatError :=
  match fs path with
  | Entry.file _ => none
  | Entry.notExist => some StatError.notExist
  | Entry.statFails _ => some StatError.other

/-- Model of `os.IsNotExist(err)`. -/
def osIsNotExist (err : Option StatError) : Bool :=
  match err with
  | some StatError.notExist => true
  | some StatError.other => false
  | none => false

/-- Package-level variables of `daemon.go` together with
`auth.DaemonGithubKeyLocation`, which `run` assigns. -/
structure Globals where
  daemonVersion : String
  daemonGithubKeyLocation : String
  sslDirectory : String
  userDatabasePath : String
  deploymentDatabasePath : String
  deriving DecidableEq, Repr

/-- Initial values of the package-level variables; the initial value of
`auth.DaemonGithubKeyLocation` lives in the `auth` package and is a parameter. -/
def initGlobals (daemonGithubKeyLocation : String) : Globals where
  daemonVersion := ""
  daemonGithubKeyLocation := daemonGithubKeyLocation
  sslDirectory := "/app/host/inertia/config/ssl/"
  userDatabasePath := "/app/host/inertia/data/users.db"
  deploymentDatabasePath := "/app/host/inertia/data/project.db"

/-- Everything outside the daemon that `run` consults.

* `pathJoin` is Go's `path.Join`;
* `newEnvClient` is the error of `docker.NewEnvClient` (`none` for `nil`);
* `fs` is the file system at start-up, with the answer of `os.Stat` for each path;
* `generateCertificate` is the error of `crypto.GenerateCertificate`; on success
  it writes `certPEM` to the certificate path and `keyPEM` to the key path;
* `newPermissionsHandler` is the error of `auth.NewPermissionsHandler`;
* `listenAndServeTLS` is the error `http.ListenAndServeTLS` returns with, `none`
  when it keeps serving and never returns. -/
structure World where
  pathJoin : String → String → String
  newEnvClient : Option String
  fs : FS
  generateCertificate : Option String
  certPEM : String
  keyPEM : String
  newPermissionsHandler : Option String
  listenAndServeTLS : Option String

/-- State threaded through `run`: globals, file system, and the trace so far. -/
structure Daemon where
  globals : Globals
  fs : FS
  trace : List Event

/-- Append events to the trace. -/
def Daemon.emit (d : Daemon) (es : List Event) : Daemon :=
  { d with trace := d.trace ++ es }

/-- Write a file. -/
def writeFile (fs : FS) (path content : String) : FS :=
  fun p => if p = path then Entry.file content else fs p

/-- The attachment calls of `run`, lines 97-119, in source order. -/
def attachRoutes : List Event :=
  let webPrefix := "/web/"
  [ Event.attach Tier.public webPrefix RouteHandler.inertiaWeb,
    Event.attach Tier.public "/webhook" RouteHandler.gitHubWebHookHandler,
    Event.attach Tier.user "/status" RouteHandler.statusHandler,
    Event.attach Tier.user "/logs" RouteHandler.logHandler,
    Event.attach Tier.admin "/up" RouteHandler.upHandler,
    Event.attach Tier.admin "/down" RouteHandler.downHandler,
    Event.attach Tier.admin "/reset" RouteHandler.resetHandler,
    Event.attach Tier.admin "/env" RouteHandler.envHandler,
    Event.attach Tier.public "/" RouteHandler.rootOk ]

/-- Lines 87-128 of `run`: create the permissions handler, attach the routes,
serve; the deferred `handler.Close()` runs when `run` returns. -/
def serveDaemon (w : World) (host port daemonSSLCert daemonSSLKey : String)
    (d : Daemon) : Daemon :=
  let d := d.emit [Event.newPermissionsHandler d.globals.userDatabasePath host 120]
  match w.newPermissionsHandler with
  | some err => d.emit [Event.println err]
  | none =>
    let d := d.emit attachRoutes
    let d := d.emit [Event.println ("Serving daemon on port " ++ port),
                     Event.listenAndServeTLS (":" ++ port) daemonSSLCert daemonSSLKey]
    match w.listenAndServeTLS with
    | none => d
    | some err => d.emit [Event.fmtPrintln err, Event.handlerClose]

/-- The arguments of `run(host, port, version, keyPath, certDir, userDir)`. -/
structure Args where
  host : String
  port : String
  version : String
  keyPath : String
  certDir : String
  userDir : String
  deriving DecidableEq, Repr

/-- Lines 44-53 of `run`: the assignments to the package-level variables. -/
def setGlobals (g : Globals) (a : Args) : Globals :=
  let g := { g with daemonVersion := a.version }
  let g := if a.keyPath ≠ "" then { g with daemonGithubKeyLocation := a.keyPath } else g
  let g := if a.certDir ≠ "" then { g with sslDirectory := a.certDir } else g
  let g := if a.userDir ≠ "" then { g with userDatabasePath := a.userDir } else g
  g

/-- The local `daemonSSLCert` of `run`: `path.Join(sslDirectory, "daemon.cert")`. -/
def daemonSSLCert (w : World) (g : Globals) (a : Args) : String :=
  w.pathJoin (setGlobals g a).sslDirectory "daemon.cert"

/-- The local `daemonSSLKey` of `run`: `path.Join(sslDirectory, "daemon.key")`. -/
def daemonSSLKey (w : World) (g : Globals) (a : Args) : String :=
  w.pathJoin (setGlobals g a).sslDirectory "daemon.key"

/-- The daemon entry point `run(host, port, version, keyPath, certDir, userDir)`,
started with package-level variables `g` in world `w`. -/
def run (w : World) (g : Globals) (a : Args) : Daemon :=
  let g := setGlobals g a
  let daemonSSLCert := w.pathJoin g.sslDirectory "daemon.cert"
  let daemonSSLKey := w.pathJoin g.sslDirectory "daemon.key"
  let d : Daemon := { globals := g, fs := w.fs, trace := [Event.newEnvClient] }
  match w.newEnvClient with
  | some err =>
    d.emit [Event.println err,
            Event.println "Failed to start Docker client - shutting down daemon."]
  | none =>
    let d := d.emit [Event.println "Downloading build tools...", Event.goDownloadDeps]
    let d := d.emit [Event.println
      ("Checking for existing SSL certificates in " ++ g.sslDirectory ++ "...")]
    let d := d.emit [Event.osStat daemonSSLCert]
    let certNotPresent := osIsNotExist (osStat d.fs daemonSSLCert)
    let d := d.emit [Event.osStat daemonSSLKey]
    let keyNotPresent := osIsNotExist (osStat d.fs daemonSSLKey)
    if keyNotPresent && certNotPresent then
      let d := d.emit [Event.println "No certificates found - generating new ones...",
        Event.generateCertificate daemonSSLCert daemonSSLKey (a.host ++ ":" ++ a.port) "RSA"]
      match w.generateCertificate with
      | some err => d.emit [Event.println err]
      | none =>
        let d := { d with
          fs := writeFile (writeFile d.fs daemonSSLCert w.certPEM) daemonSSLKey w.keyPEM }
        serveDaemon w a.host a.port daemonSSLCert daemonSSLKey d
    else
      serveDaemon w a.host a.port daemonSSLCert daemonSSLKey d

/-- Whether an event is a call of `crypto.GenerateCertificate`. -/
def Event.isGenerate : Event → Bool
  | Event.generateCertificate _ _ _ _ => true
  | _ => false

/-- Whether an event is a call of `http.ListenAndServeTLS`. -/
def Event.isListen : Event → Bool
  | Event.listenAndServeTLS _ _ _ => true
  | _ => false

/-- Whether an event is a call of `auth.NewPermissionsHandler`. -/
def Event.isNewHandler : Event → Bool
  | Event.newPermissionsHandler _ _ _ => true
  | _ => false

/-- Whether an event attaches a route. -/
def Event.isAttach : Event → Bool
  | Event.attach _ _ _ => true
  | _ => false

/-- The routes registered in a trace, with the tier of the attachment call. -/
def registered : List Event → List (String × Tier)
  | [] => []
  | Event.attach t p _ :: es => (p, t) :: registered es
  | _ :: es => registered es

/-- A concrete world: nothing on disk, every external call succeeds, the
listener later returns with an error. -/
def freshWorld : World where
  pathJoin := fun dir name => dir ++ name
  newEnvClient := none
  fs := fun _ => Entry.notExist
  generateCertificate := none
  certPEM := "CERT"
  keyPEM := "KEY"
  newPermissionsHandler := none
  listenAndServeTLS := some "http: Server closed"

/-- The route table of the specification (section 6): route and tier. -/
def specRouteTable : List (String × Tier) :=
  [ ("/", Tier.public), ("/webhook", Tier.public),
    ("/status", Tier.user), ("/logs", Tier.user),
    ("/up", Tier.admin), ("/down", Tier.admin), ("/reset", Tier.admin), ("/env", Tier.admin) ]

/-- The mutating routes. -/
def mutatingRoutes : List String := ["/up", "/down", "/reset", "/env"]

/-- The events of `run` up to and including the two `os.Stat` calls. -/
def checkedTrace (w : World) (g : Globals) (a : Args) : List Event :=
  [ Event.newEnvClient, Event.println "Downloading build tools...", Event.goDownloadDeps,
    Event.println ("Checking for existing SSL certificates in " ++
      (setGlobals g a).sslDirectory ++ "..."),
    Event.osStat (daemonSSLCert w g a), Event.osStat (daemonSSLKey w g a) ]

/-- The events of the generation branch of `run`. -/
def generateTrace (w : World) (g : Globals) (a : Args) : List Event :=
  [ Event.println "No certificates found - generating new ones...",
    Event.generateCertificate (daemonSSLCert w g a) (daemonSSLKey w g a)
      (a.host ++ ":" ++ a.port) "RSA" ]

/-- The events of lines 87-128 of `run`. -/
def serveTrace (w : World) (g : Globals) (a : Args) : List Event :=
  Event.newPermissionsHandler (setGlobals g a).userDatabasePath a.host 120 ::
    (match w.newPermissionsHandler with
      | some err => [Event.println err]
      | none =>
        attachRoutes ++
          [Event.println ("Serving daemon on port " ++ a.port),
           Event.listenAndServeTLS (":" ++ a.port) (daemonSSLCert w g a) (daemonSSLKey w g a)] ++
          (match w.listenAndServeTLS with
            | none => []
            | some err => [Event.fmtPrintln err, Event.handlerClose]))

/-! ## Concrete worlds and arguments used as instances -/

/-- Arguments as the daemon is normally started: default directories. -/
def defaultArgs : Args where
  host := "0.0.0.0"
  port := "8081"
  version := "latest"
  keyPath := ""
  certDir := ""
  userDir := ""

/-- Only `daemon.cert` is on disk; `daemon.key` is missing. -/
def certOnlyWorld : World :=
  { freshWorld with
    fs := fun p =>
      if p = "/app/host/inertia/config/ssl/daemon.cert" then Entry.file "CERT"
      else Entry.notExist }

/-- Both `daemon.cert` and `daemon.key` are on disk. -/
def bothWorld : World :=
  { freshWorld with
    fs := fun p =>
      if p = "/app/host/inertia/config/ssl/daemon.cert" then Entry.file "CERT"
      else if p = "/app/host/inertia/config/ssl/daemon.key" then Entry.file "KEY"
      else Entry.notExist }

/-- The SSL directory is not a directory (a regular file stands at its path): no
file is below it and `os.Stat` fails on every path with an error that is not a
not-exist error. -/
def notDirWorld : World :=
  { freshWorld with fs := fun _ => Entry.statFails none }

/-- Nothing on disk and `crypto.GenerateCertificate` fails. -/
def failingWorld : World :=
  { freshWorld with generateCertificate := some "crypto: generation failed" }

/-! ## `downloadDeps` and `dockerPull`: three goroutines and a wait group

`downloadDeps` starts two `dockerPull` goroutines and joins them on a
`sync.WaitGroup`. Each goroutine is a program counter; `step` performs the next
statement of one goroutine, and an execution is any interleaving of steps. -/

/-- The goroutines started by `go downloadDeps(cli)`. -/
inductive Goroutine where
  | downloadDeps
  | dockerPullCompose
  | dockerPullHerokuish
  deriving DecidableEq, Repr

/-- The image constants of the `project` package and the error (`none` for `nil`)
`cli.ImagePull` returns in each of the two `dockerPull` goroutines. -/
structure Pulls where
  dockerComposeVersion : String
  herokuishVersion : String
  composeErr : Option String
  herokuishErr : Option String
  deriving DecidableEq, Repr

/-- Observable actions of the three goroutines. -/
inductive DepsEvent where
  | waitAdd (n : Nat)
  | goDockerPull (image : String)
  | println (msg : String)
  | imagePull (g : Goroutine) (image : String)
  | waitDone (g : Goroutine)
  | waitReturned
  | clientClose
  deriving DecidableEq, Repr

/-- Program counter of `dockerPull`: not started by `go` yet, entered (the
`wait.Done()` is deferred), after the first `println`, after `cli.ImagePull`
returned, after the `println` of the `if`/`else`, returned (deferred
`wait.Done()` executed). -/
inductive PullPC where
  | unspawned
  | entered
  | announced
  | pulled
  | logged
  | returned
  deriving DecidableEq, Repr

/-- Program counter of `downloadDeps`: entered, after `wait.Add(2)`, after the first
`go dockerPull`, after the second, after `wait.Wait()` returned, after
`cli.Close()`. -/
inductive DepsPC where
  | entered
  | added
  | spawnedCompose
  | spawnedBoth
  | joined
  | closed
  deriving DecidableEq, Repr

/-- State of the three goroutines: program counters, the wait group counter and
the log of actions so far. -/
structure DepsState where
  deps : DepsPC
  compose : PullPC
  herokuish : PullPC
  counter : Int
  log : List DepsEvent
  deriving DecidableEq, Repr

/-- State when `go downloadDeps(cli)` is executed. -/
def initDeps : DepsState where
  deps := DepsPC.entered
  compose := PullPC.unspawned
  herokuish := PullPC.unspawned
  counter := 0
  log := []

/-- Next statement of `dockerPull(image, cli, wait)` in goroutine `me`: the new
program counter, the action, and the change of the wait group counter. -/
def dockerPull (me : Goroutine) (image : String) (err : Option String) :
    PullPC → Option (PullPC × DepsEvent × Int)
  | PullPC.unspawned => none
  | PullPC.entered => some (PullPC.announced, DepsEvent.println ("Downloading " ++ image), 0)
  | PullPC.announced => some (PullPC.pulled, DepsEvent.imagePull me image, 0)
  | PullPC.pulled =>
    match err with
    | some e => some (PullPC.logged, DepsEvent.println e, 0)
    | none => some (PullPC.logged, DepsEvent.println (image ++ " download complete"), 0)
  | PullPC.logged => some (PullPC.returned, DepsEvent.waitDone me, -1)
  | PullPC.returned => none

/-- Next statement of `downloadDeps(cli)`; `wait.Wait()` can only return when the
counter is zero. -/
def downloadDeps (p : Pulls) (s : DepsState) : Option DepsState :=
  match s.deps with
  | DepsPC.entered =>
    some { s with deps := DepsPC.added, counter := s.counter + 2,
                  log := s.log ++ [DepsEvent.waitAdd 2] }
  | DepsPC.added =>
    some { s with deps := DepsPC.spawnedCompose, compose := PullPC.entered,
                  log := s.log ++ [DepsEvent.goDockerPull p.dockerComposeVersion] }
  | DepsPC.spawnedCompose =>
    some { s with deps := DepsPC.spawnedBoth, herokuish := PullPC.entered,
                  log := s.log ++ [DepsEvent.goDockerPull p.herokuishVersion] }
  | DepsPC.spawnedBoth =>
    if s.counter = 0 then
      some { s with deps := DepsPC.joined, log := s.log ++ [DepsEvent.waitReturned] }
    else none
  | DepsPC.joined =>
    some { s with deps := DepsPC.closed, log := s.log ++ [DepsEvent.clientClose] }
  | DepsPC.closed => none

/-- One step of goroutine `g`; `none` when `g` cannot move (not started, blocked in
`wait.Wait()`, or returned). -/
def step (p : Pulls) (g : Goroutine) (s : DepsState) : Option DepsState :=
  match g with
  | Goroutine.downloadDeps => downloadDeps p s
  | Goroutine.dockerPullCompose =>
    match dockerPull g p.dockerComposeVersion p.composeErr s.compose with
    | none => none
    | some (pc, e, delta) =>
      some { s with compose := pc, counter := s.counter + delta, log := s.log ++ [e] }
  | Goroutine.dockerPullHerokuish =>
    match dockerPull g p.herokuishVersion p.herokuishErr s.herokuish with
    | none => none
    | some (pc, e, delta) =>
      some { s with herokuish := pc, counter := s.counter + delta, log := s.log ++ [e] }

/-- Run a schedule: the goroutines take steps in the listed order; `none` when a
listed goroutine cannot move at its turn. -/
def execute (p : Pulls) : List Goroutine → DepsState → Option DepsState
  | [], s => some s
  | g :: gs, s =>
    match step p g s with
    | none => none
    | some s' => execute p gs s'

/-- Whether an event is the `cli.ImagePull` call of goroutine `g`. -/
def DepsEvent.isPull (g : Goroutine) : DepsEvent → Bool
  | DepsEvent.imagePull g' _ => decide (g' = g)
  | _ => false

/-- Whether an event is the `wait.Done()` of goroutine `g`. -/
def DepsEvent.isDone (g : Goroutine) : DepsEvent → Bool
  | DepsEvent.waitDone g' => decide (g' = g)
  | _ => false

/-- Whether an event is `cli.Close()`. -/
def DepsEvent.isClose : DepsEvent → Bool
  | DepsEvent.clientClose => true
  | _ => false

/-- Statements `dockerPull` still has to execute. -/
def PullPC.remaining : PullPC → Nat
  | PullPC.unspawned => 4
  | PullPC.entered => 4
  | PullPC.announced => 3
  | PullPC.pulled => 2
  | PullPC.logged => 1
  | PullPC.returned => 0

/-- Statements `downloadDeps` still has to execute. -/
def DepsPC.remaining : DepsPC → Nat
  | DepsPC.entered => 5
  | DepsPC.added => 4
  | DepsPC.spawnedCompose => 3
  | DepsPC.spawnedBoth => 2
  | DepsPC.joined => 1
  | DepsPC.closed => 0

/-- Statements the three goroutines still have to execute. -/
def DepsState.remaining (s : DepsState) : Nat :=
  s.deps.remaining + s.compose.remaining + s.herokuish.remaining

/-- Number of `wait.Done()` calls a `dockerPull` at this program counter has made. -/
def PullPC.dones : PullPC → Nat
  | PullPC.returned => 1
  | _ => 0

/-- Number of `cli.ImagePull` calls a `dockerPull` at this program counter has made. -/
def PullPC.pulls : PullPC → Nat
  | PullPC.pulled => 1
  | PullPC.logged => 1
  | PullPC.returned => 1
  | _ => 0

/-- What the program counters determine about the rest of the state. -/
def DepsState.Inv (s : DepsState) : Prop :=
  s.counter = (if s.deps = DepsPC.entered then 0 else 2) - s.compose.dones - s.herokuish.dones ∧
  s.log.countP (DepsEvent.isDone Goroutine.dockerPullCompose) = s.compose.dones ∧
  s.log.countP (DepsEvent.isDone Goroutine.dockerPullHerokuish) = s.herokuish.dones ∧
  s.log.countP (DepsEvent.isPull Goroutine.dockerPullCompose) = s.compose.pulls ∧
  s.log.countP (DepsEvent.isPull Goroutine.dockerPullHerokuish) = s.herokuish.pulls ∧
  s.log.countP DepsEvent.isClose = (if s.deps = DepsPC.closed then 1 else 0) ∧
  (s.compose = PullPC.unspawned ↔ (s.deps = DepsPC.entered ∨ s.deps = DepsPC.added)) ∧
  (s.herokuish = PullPC.unspawned ↔
    (s.deps = DepsPC.entered ∨ s.deps = DepsPC.added ∨ s.deps = DepsPC.spawnedCompose)) ∧
  ((s.deps = DepsPC.joined ∨ s.deps = DepsPC.closed) →
    s.compose = PullPC.returned ∧ s.herokuish = PullPC.returned)

/-- A schedule that runs `downloadDeps` to its end: the two pulls one after the
other. -/
def sequentialSchedule : List Goroutine :=
  [ Goroutine.downloadDeps, Goroutine.downloadDeps, Goroutine.downloadDeps,
    Goroutine.dockerPullCompose, Goroutine.dockerPullCompose,
    Goroutine.dockerPullCompose, Goroutine.dockerPullCompose,
    Goroutine.dockerPullHerokuish, Goroutine.dockerPullHerokuish,
    Goroutine.dockerPullHerokuish, Goroutine.dockerPullHerokuish,
    Goroutine.downloadDeps, Goroutine.downloadDeps ]

/-! ## HTTP handlers -/

/-- An HTTP request as a handler sees it. -/
structure Request where
  method : String
  path : String
  header : List (String × String)
  body : String
  remoteAddr : String
  deriving DecidableEq, Repr

/-- State of an `http.ResponseWriter`: the header map, the status code once
`WriteHeader` has been called together with the header map sent with it, and the
body written so far. -/
structure ResponseWriter where
  header : List (String × String)
  status : Option Nat
  sentHeader : List (String × String)
  body : String
  deriving DecidableEq, Repr

/-- The writer a handler is called with. -/
def ResponseWriter.fresh : ResponseWriter where
  header := []
  status := none
  sentHeader := []
  body := ""

/-- `w.Header().Set(key, value)`. -/
def ResponseWriter.headerSet (w : ResponseWriter) (key value : String) : ResponseWriter :=
  { w with header := (key, value) :: w.header.filter (fun kv => kv.1 ≠ key) }

/-- `w.WriteHeader(code)`: the first call sends the status and the header map;
later calls change nothing. -/
def ResponseWriter.writeHeader (w : ResponseWriter) (code : Nat) : ResponseWriter :=
  match w.status with
  | some _ => w
  | none => { w with status := some code, sentHeader := w.header }

/-- `http.StatusOK`. -/
def StatusOK : Nat := 200

/-- `w.Write(data)` (as `fmt.Fprint(w, data)` calls it): sends status 200 first when
no status has been sent. -/
def ResponseWriter.write (w : ResponseWriter) (data : String) : ResponseWriter :=
  let w := w.writeHeader StatusOK
  { w with body := w.body ++ data }

/-- The function literal `run` attaches at `"/"` (lines 117-119). -/
def rootOkFunc (w : ResponseWriter) (_r : Request) : ResponseWriter :=
  w.writeHeader StatusOK

/-- The `rootHandler` of `cmd/daemon.go`. -/
def rootHandler (w : ResponseWriter) (_r : Request) : ResponseWriter :=
  let w := w.headerSet "Content-Type" "text/html"
  let w := w.writeHeader StatusOK
  w.write "Hello, World!"

/-- Why the token service rejects a request (specification, section 4.1). -/
inductive AuthError where
  | invalidCredentials
  | expiredSession
  deriving DecidableEq, Repr

/-- Role of an authenticated identity. -/
inductive Role where
  | admin
  | user
  deriving DecidableEq, Repr

/-- Status code of a denial: 400 malformed, 401 expired. -/
def AuthError.status : AuthError → Nat
  | AuthError.invalidCredentials => 400
  | AuthError.expiredSession => 401

/-- Modelled from the spec: the permissions handler of the `auth` package
(`AttachPublicHandlerFunc`, `AttachUserRestrictedHandlerFunc`,
`AttachAdminRestrictedHandlerFunc` and its `ServeHTTP`) is not among the sources.
Section 4.1: public tier, no check, the handler is invoked directly; user tier,
the request must carry a valid session token, otherwise a denial status is
written and the handler is not invoked; admin tier, as user tier and the role
must be admin, otherwise 403. `authenticate` is the token validation. -/
def servePermissions (authenticate : Request → Except AuthError Role) (tier : Tier)
    (handler : ResponseWriter → Request → ResponseWriter)
    (w : ResponseWriter) (r : Request) : ResponseWriter :=
  match tier with
  | Tier.public => handler w r
  | Tier.user =>
    match authenticate r with
    | Except.ok _ => handler w r
    | Except.error e => w.writeHeader e.status
  | Tier.admin =>
    match authenticate r with
    | Except.ok Role.admin => handler w r
    | Except.ok Role.user => w.writeHeader 403
    | Except.error e => w.writeHeader e.status

/-- The function behind a handler value of `run`, for the one handler whose body
is in `daemon.go`. -/
def RouteHandler.func? : RouteHandler → Option (ResponseWriter → Request → ResponseWriter)
  | RouteHandler.rootOk => some rootOkFunc
  | _ => none

/-! ## Remote URL normalisation (`common` package) -/

/-- Drop `pre` from the front of `l` when `l` starts with it. -/
def dropLeading : List Char → List Char → Option (List Char)
  | [], l => some l
  | _ :: _, [] => none
  | p :: ps, c :: cs => if p = c then dropLeading ps cs else none

/-- Host of an authority `[userinfo@]host`: what follows the last `@`. -/
def hostOf : List Char → List Char
  | [] => []
  | c :: cs => if '@' ∈ cs then hostOf cs else if c = '@' then cs else c :: cs

/-- Characters of an authority: everything but `/`. -/
def notSlash (c : Char) : Bool := c != '/'

/-- SSH form `git@host:path` of what follows the scheme, `[userinfo@]host/path`. -/
def sshForm (rest : List Char) : List Char :=
  let authority := rest.takeWhile notSlash
  let path := (rest.dropWhile notSlash).drop 1
  "git@".toList ++ hostOf authority ++ ':' :: path

/-- Modelled from the spec: `GetSSHRemoteURL` is declared in `common/git.go`, which
is not among the sources; only its test `TestGetSSHRemoteURL` is. The
specification (section 4.3, `CompareRemotes`) asks for "normalizing
SSH/HTTPS/URL-scheme variants of the same host+path to equivalent identity", and
the test expects the SSH form `git@host:path`: a URL already in SSH form is
returned as it is, and after `https://` or `git://` an optional `userinfo@`
is dropped, the host is kept and the first `/` becomes `:`. -/
def GetSSHRemoteURL (url : String) : String :=
  match dropLeading "git@".toList url.toList with
  | some _ => url
  | none =>
    match dropLeading "https://".toList url.toList with
    | some rest => String.mk (sshForm rest)
    | none =>
      match dropLeading "git://".toList url.toList with
      | some rest => String.mk (sshForm rest)
      | none => url

/-- The `remoteURLVariations` of `common/git_test.go`. -/
def remoteURLVariations : List String :=
  [ "git@github.com:ubclaunchpad/inertia.git",
    "git@gitlab.com:ubclaunchpad/inertia.git",
    "git@bitbucket.org:ubclaunchpad/inertia.git",
    "https://github.com/ubclaunchpad/inertia.git",
    "git://github.com/ubclaunchpad/inertia.git",
    "https://gitlab.com/ubclaunchpad/inertia.git",
    "git://gitlab.com/ubclaunchpad/inertia.git",
    "https://ubclaunchpad@bitbucket.org/ubclaunchpad/inertia.git" ]

/-- The hosts of the test. -/
def knownHosts : List String := ["github.com", "gitlab.com", "bitbucket.org"]

/-! ## Tokens (`auth` package)

`GenerateToken` is `jwt.New(jwt.SigningMethodHS256).SignedString(key)` of the
`jwt-go` library: SHA-256 (FIPS 180-4), HMAC (RFC 2104) and unpadded base64url
(RFC 4648) are written out below on lists of bytes. -/

/-- A byte of a `[]byte`. -/
abbrev Byte := Fin 256

/-- Rotate a 32-bit word right. -/
def rotr (x n : Nat) : Nat := ((x >>> n) ||| (x <<< (32 - n))) % 4294967296

/-- SHA-256 `Ch`. -/
def ch (x y z : Nat) : Nat := (x &&& y) ^^^ ((x ^^^ 4294967295) &&& z)

/-- SHA-256 `Maj`. -/
def maj (x y z : Nat) : Nat := (x &&& y) ^^^ (x &&& z) ^^^ (y &&& z)

/-- SHA-256 big sigma 0. -/
def bsig0 (x : Nat) : Nat := rotr x 2 ^^^ rotr x 13 ^^^ rotr x 22

/-- SHA-256 big sigma 1. -/
def bsig1 (x : Nat) : Nat := rotr x 6 ^^^ rotr x 11 ^^^ rotr x 25

/-- SHA-256 small sigma 0. -/
def ssig0 (x : Nat) : Nat := rotr x 7 ^^^ rotr x 18 ^^^ (x >>> 3)

/-- SHA-256 small sigma 1. -/
def ssig1 (x : Nat) : Nat := rotr x 17 ^^^ rotr x 19 ^^^ (x >>> 10)

/-- The round constants of SHA-256. -/
def sha256K : List Nat :=
  [ 0x428a2f98, 0x71374491, 0xb5c0fbcf, 0xe9b5dba5, 0x3956c25b, 0x59f111f1, 0x923f82a4,
    0xab1c5ed5, 0xd807aa98, 0x12835b01, 0x243185be, 0x550c7dc3, 0x72be5d74, 0x80deb1fe,
    0x9bdc06a7, 0xc19bf174, 0xe49b69c1, 0xefbe4786, 0x0fc19dc6, 0x240ca1cc, 0x2de92c6f,
    0x4a7484aa, 0x5cb0a9dc, 0x76f988da, 0x983e5152, 0xa831c66d, 0xb00327c8, 0xbf597fc7,
    0xc6e00bf3, 0xd5a79147, 0x06ca6351, 0x14292967, 0x27b70a85, 0x2e1b2138, 0x4d2c6dfc,
    0x53380d13, 0x650a7354, 0x766a0abb, 0x81c2c92e, 0x92722c85, 0xa2bfe8a1, 0xa81a664b,
    0xc24b8b70, 0xc76c51a3, 0xd192e819, 0xd6990624, 0xf40e3585, 0x106aa070, 0x19a4c116,
    0x1e376c08, 0x2748774c, 0x34b0bcb5, 0x391c0cb3, 0x4ed8aa4a, 0x5b9cca4f, 0x682e6ff3,
    0x748f82ee, 0x78a5636f, 0x84c87814, 0x8cc70208, 0x90befffa, 0xa4506ceb, 0xbef9a3f7,
    0xc67178f2 ]

/-- The initial hash value of SHA-256. -/
def sha256Init : List Nat :=
  [ 0x6a09e667, 0xbb67ae85, 0x3c6ef372, 0xa54ff53a, 0x510e527f, 0x9b05688c, 0x1f83d9ab,
    0x5be0cd19 ]

/-- The `n` low bytes of `x`, most significant first. -/
def beBytes : Nat → Nat → List Nat
  | 0, _ => []
  | n + 1, x => (x / 256 ^ n) % 256 :: beBytes n x

/-- SHA-256 padding: a one bit, zeros, and the bit length on eight bytes. -/
def sha256Pad (msg : List Nat) : List Nat :=
  msg ++ [128] ++ List.replicate ((119 - msg.length % 64) % 64) 0 ++ beBytes 8 (8 * msg.length)

/-- Bytes to 32-bit words, most significant byte first. -/
def beWords : List Nat → List Nat
  | a :: b :: c :: d :: rest => (((a * 256 + b) * 256 + c) * 256 + d) :: beWords rest
  | _ => []

/-- Message schedule: extend by `n` words; `ws` holds the words so far, newest
first. -/
def schedule : Nat → List Nat → List Nat
  | 0, ws => ws.reverse
  | n + 1, ws =>
    schedule n
      ((ssig1 (ws.getD 1 0) + ws.getD 6 0 + ssig0 (ws.getD 14 0) + ws.getD 15 0)
        % 4294967296 :: ws)

/-- One round of the SHA-256 compression function on the working variables. -/
def sha256Round (s : List Nat) (kw : Nat × Nat) : List Nat :=
  match s with
  | [a, b, c, d, e, f, g, h] =>
    [ (h + bsig1 e + ch e f g + kw.1 + kw.2 + (bsig0 a + maj a b c)) % 4294967296, a, b, c,
      (d + (h + bsig1 e + ch e f g + kw.1 + kw.2)) % 4294967296, e, f, g ]
  | _ => s

/-- Compress one 64-byte block into the hash value. -/
def sha256Block (h : List Nat) (block : List Nat) : List Nat :=
  List.zipWith (fun x y => (x + y) % 4294967296) h
    ((sha256K.zip (schedule 48 (beWords block).reverse)).foldl sha256Round h)

/-- Cut into 64-byte blocks (at most `n` of them). -/
def chunks64 : Nat → List Nat → List (List Nat)
  | 0, _ => []
  | n + 1, bs => if bs.isEmpty then [] else bs.take 64 :: chunks64 n (bs.drop 64)

/-- SHA-256 of a byte string (`sha256.Sum256`). -/
def sha256 (msg : List Nat) : List Nat :=
  ((chunks64 (sha256Pad msg).length (sha256Pad msg)).foldl sha256Block sha256Init).flatMap
    (beBytes 4)

/-- The HMAC key block: keys longer than a block are hashed, shorter ones are
filled with zero bytes. -/
def hmacKeyBlock (key : List Nat) : List Nat :=
  (if key.length > 64 then sha256 key else key) ++
    List.replicate (64 - (if key.length > 64 then sha256 key else key).length) 0

/-- HMAC-SHA256 (`hmac.New(sha256.New, key)`). -/
def hmacSHA256 (key msg : List Nat) : List Nat :=
  sha256 ((hmacKeyBlock key).map (fun b => b ^^^ 0x5c) ++
    sha256 ((hmacKeyBlock key).map (fun b => b ^^^ 0x36) ++ msg))

/-- The base64url alphabet. -/
def b64Alphabet : List Char :=
  "ABCDEFGHIJKLMNOPQRSTUVWXYZabcdefghijklmnopqrstuvwxyz0123456789-_".toList

/-- The character of a six-bit value. -/
def b64Char (n : Nat) : Char := b64Alphabet.getD n 'A'

/-- The six-bit value of a character of the alphabet. -/
def b64Value (c : Char) : Option Nat :=
  if c ∈ b64Alphabet then some (b64Alphabet.indexOf c) else none

/-- Model of `jwt.EncodeSegment`: base64url without padding. -/
def EncodeSegment : List Nat → List Char
  | a :: b :: c :: rest =>
    b64Char (a / 4) :: b64Char ((a % 4) * 16 + b / 16) :: b64Char ((b % 16) * 4 + c / 64)
      :: b64Char (c % 64) :: EncodeSegment rest
  | [a, b] => [b64Char (a / 4), b64Char ((a % 4) * 16 + b / 16), b64Char ((b % 16) * 4)]
  | [a] => [b64Char (a / 4), b64Char ((a % 4) * 16)]
  | [] => []

/-- Bytes of a sequence of six-bit values. -/
def sextetsToBytes : List Nat → List Nat
  | a :: b :: c :: d :: rest =>
    (a * 4 + b / 16) :: ((b % 16) * 16 + c / 4) :: ((c % 4) * 64 + d) :: sextetsToBytes rest
  | [a, b, c] => [a * 4 + b / 16, (b % 16) * 16 + c / 4]
  | [a, b] => [a * 4 + b / 16]
  | _ => []

/-- Model of `jwt.DecodeSegment`: `none` when a character is outside the alphabet. -/
def DecodeSegment (seg : List Char) : Option (List Nat) :=
  (seg.mapM b64Value).map sextetsToBytes

/-- The bytes of an ASCII string (`[]byte(s)`). -/
def asciiBytes (s : String) : List Byte := s.toList.map (fun c => Fin.ofNat c.toNat)

/-- The header of an HS256 token, `{"alg":"HS256","typ":"JWT"}`. -/
def jwtHeader : String := "\x7b\"alg\":\"HS256\",\"typ\":\"JWT\"\x7d"

/-- The claims `jwt.New` starts with: the empty object. -/
def jwtClaims : String := "\x7b\x7d"

/-- Model of `Token.SigningString`: encoded header, a dot, encoded claims. -/
def SigningString : List Char :=
  EncodeSegment (jwtHeader.toList.map Char.toNat) ++ '.' ::
    EncodeSegment (jwtClaims.toList.map Char.toNat)

/-- The token text for a key: signing string, a dot, the encoded HMAC-SHA256 of the
signing string. -/
def signedString (key : List Byte) : String :=
  String.mk (SigningString ++ '.' ::
    EncodeSegment (hmacSHA256 (key.map Fin.val) (SigningString.map Char.toNat)))

/-- Modelled from the spec: `GenerateToken` is declared in
`daemon/inertiad/auth`, whose only source at hand is `auth_test.go`. The
specification (section 4.2) describes a token "signed with a server-held symmetric
or asymmetric key" that "fails only if the signing key is unavailable"; the test
fixes the token for the key `very_sekrit_key`, whose header segment is
`{"alg":"HS256","typ":"JWT"}`, whose claims segment is `e30`, the empty object,
and whose third segment is the HMAC-SHA256 of the first two. The model is the
HS256 token with empty claims, which reproduces that string; a `[]byte` key is
always available, so the error result is never produced. -/
def GenerateToken (key : List Byte) : Except String String :=
  Except.ok (signedString key)

/-- The `testPrivateKey` of `auth_test.go`. -/
def testPrivateKey : List Byte := asciiBytes "very_sekrit_key"

/-- The `testToken` of `auth_test.go`. -/
def testToken : String :=
  "eyJhbGciOiJIUzI1NiIsInR5cCI6IkpXVCJ9.e30.AqFWnFeY9B8jj7-l3z0a9iaZdwIca7xhUF3fuaJjU90"

/-- The second key of `TestGenerateToken`. -/
def otherPrivateKey : List Byte := asciiBytes "another_sekrit_key"

/-- Characters of a token segment: everything but the dot. -/
def notDot (c : Char) : Bool := c != '.'

/-- The second dot-separated segment of a token. -/
def payloadSegment (token : String) : List Char :=
  ((token.toList.dropWhile notDot).drop 1).takeWhile notDot

/-- The claims of a token: its payload segment decoded to text. -/
def tokenClaims (token : String) : Option (List Char) :=
  (DecodeSegment (payloadSegment token)).map (fun bs => bs.map Char.ofNat)

/-- Whether `pat` occurs in `text`. -/
def containsChars (pat : List Char) : List Char → Bool
  | [] => pat.isEmpty
  | c :: cs => (dropLeading pat (c :: cs)).isSome || containsChars pat cs

/-- Whether a JSON text has a member of the given name. -/
def hasClaim (name : String) (json : List Char) : Bool :=
  containsChars ('"' :: name.toList ++ ['"']) json

/-! ## Lemmas on traces -/

theorem registered_append (xs ys : List Event) :
    registered (xs ++ ys) = registered xs ++ registered ys := by
  induction xs with
  | nil => rfl
  | cons e es ih => cases e <;> simp [registered, ih]

theorem registered_attachRoutes :
    registered attachRoutes =
      [ ("/web/", Tier.public), ("/webhook", Tier.public), ("/status", Tier.user),
        ("/logs", Tier.user), ("/up", Tier.admin), ("/down", Tier.admin),
        ("/reset", Tier.admin), ("/env", Tier.admin), ("/", Tier.public) ] := rfl

/-- The trace of `serveDaemon` extends the trace it starts from. -/
theorem serveDaemon_trace (w : World) (host port c k : String) (d : Daemon) :
    (serveDaemon w host port c k d).trace =
      d.trace ++ Event.newPermissionsHandler d.globals.userDatabasePath host 120 ::
        (match w.newPermissionsHandler with
          | some err => [Event.println err]
          | none =>
            attachRoutes ++
              [Event.println ("Serving daemon on port " ++ port),
               Event.listenAndServeTLS (":" ++ port) c k] ++
              (match w.listenAndServeTLS with
                | none => []
                | some err => [Event.fmtPrintln err, Event.handlerClose])) := by
  unfold serveDaemon
  cases h1 : w.newPermissionsHandler <;> cases h2 : w.listenAndServeTLS <;>
    simp [Daemon.emit]

theorem serveDaemon_fs (w : World) (host port c k : String) (d : Daemon) :
    (serveDaemon w host port c k d).fs = d.fs := by
  unfold serveDaemon
  cases h1 : w.newPermissionsHandler <;> cases h2 : w.listenAndServeTLS <;>
    simp [Daemon.emit]

/-- `os.IsNotExist(os.Stat(path))` holds exactly of the entries without a file for
which `os.Stat` gives the not-exist error. -/
theorem osIsNotExist_osStat (fs : FS) (path : String) :
    osIsNotExist (osStat fs path) = true ↔ fs path = Entry.notExist := by
  cases h : fs path <;> simp [osStat, osIsNotExist, h]

/-- `run` when the Docker client cannot be created. -/
theorem run_noClient (w : World) (g : Globals) (a : Args) (err : String)
    (h : w.newEnvClient = some err) :
    (run w g a).trace = [Event.newEnvClient, Event.println err,
      Event.println "Failed to start Docker client - shutting down daemon."] ∧
    (run w g a).fs = w.fs := by
  simp [run, h, Daemon.emit]

/-- `run` when `os.Stat` does not report both files as not existing: the guard of
line 78 is false and nothing is generated. -/
theorem run_present (w : World) (g : Globals) (a : Args)
    (hc : w.newEnvClient = none)
    (hp : w.fs (daemonSSLCert w g a) ≠ Entry.notExist ∨
      w.fs (daemonSSLKey w g a) ≠ Entry.notExist) :
    (run w g a).trace = checkedTrace w g a ++ serveTrace w g a ∧
    (run w g a).fs = w.fs := by
  have hcond : (osIsNotExist (osStat w.fs (daemonSSLKey w g a)) &&
      osIsNotExist (osStat w.fs (daemonSSLCert w g a))) = false := by
    rcases hp with hp | hp
    · cases hf : w.fs (daemonSSLCert w g a) with
      | notExist => exact absurd hf hp
      | file _ => simp [osStat, osIsNotExist, hf]
      | statFails _ => simp [osStat, osIsNotExist, hf]
    · cases hf : w.fs (daemonSSLKey w g a) with
      | notExist => exact absurd hf hp
      | file _ => simp [osStat, osIsNotExist, hf]
      | statFails _ => simp [osStat, osIsNotExist, hf]
  simp only [daemonSSLCert, daemonSSLKey] at hcond
  simp [run, hc, Daemon.emit, hcond, serveDaemon_trace, serveDaemon_fs, checkedTrace,
    serveTrace, daemonSSLCert, daemonSSLKey]

/-- `run` when `os.Stat` reports both files as not existing and generation fails. -/
theorem run_generate_fails (w : World) (g : Globals) (a : Args) (err : String)
    (hc : w.newEnvClient = none)
    (h1 : w.fs (daemonSSLCert w g a) = Entry.notExist)
    (h2 : w.fs (daemonSSLKey w g a) = Entry.notExist)
    (hg : w.generateCertificate = some err) :
    (run w g a).trace = checkedTrace w g a ++ generateTrace w g a ++ [Event.println err] ∧
    (run w g a).fs = w.fs := by
  simp only [daemonSSLCert, daemonSSLKey] at h1 h2
  simp [run, hc, Daemon.emit, osStat, osIsNotExist, h1, h2, hg, checkedTrace,
    generateTrace, daemonSSLCert, daemonSSLKey]

/-- `run` when `os.Stat` reports both files as not existing and generation
succeeds. -/
theorem run_generate_ok (w : World) (g : Globals) (a : Args)
    (hc : w.newEnvClient = none)
    (h1 : w.fs (daemonSSLCert w g a) = Entry.notExist)
    (h2 : w.fs (daemonSSLKey w g a) = Entry.notExist)
    (hg : w.generateCertificate = none) :
    (run w g a).trace = checkedTrace w g a ++ generateTrace w g a ++ serveTrace w g a ∧
    (run w g a).fs =
      writeFile (writeFile w.fs (daemonSSLCert w g a) w.certPEM) (daemonSSLKey w g a)
        w.keyPEM := by
  simp only [daemonSSLCert, daemonSSLKey] at h1 h2
  simp [run, hc, Daemon.emit, osStat, osIsNotExist, h1, h2, hg, checkedTrace,
    generateTrace, serveTrace, serveDaemon_trace, serveDaemon_fs, daemonSSLCert,
    daemonSSLKey]

theorem defaultArgs_cert (w : World) (h : w.pathJoin = fun dir name => dir ++ name) :
    daemonSSLCert w (initGlobals "") defaultArgs =
      "/app/host/inertia/config/ssl/daemon.cert" := by
  simp [daemonSSLCert, setGlobals, defaultArgs, initGlobals, h]

theorem defaultArgs_key (w : World) (h : w.pathJoin = fun dir name => dir ++ name) :
    daemonSSLKey w (initGlobals "") defaultArgs =
      "/app/host/inertia/config/ssl/daemon.key" := by
  simp [daemonSSLKey, setGlobals, defaultArgs, initGlobals, h]

/-! ## What each part of the trace contains -/

theorem checkedTrace_any (w : World) (g : Globals) (a : Args) :
    (checkedTrace w g a).any Event.isGenerate = false ∧
    (checkedTrace w g a).any Event.isListen = false ∧
    (checkedTrace w g a).any Event.isNewHandler = false ∧
    (checkedTrace w g a).any Event.isAttach = false ∧
    registered (checkedTrace w g a) = [] := by
  simp [checkedTrace, Event.isGenerate, Event.isListen, Event.isNewHandler, Event.isAttach,
    registered]

theorem generateTrace_any (w : World) (g : Globals) (a : Args) :
    (generateTrace w g a).any Event.isGenerate = true ∧
    (generateTrace w g a).any Event.isListen = false ∧
    (generateTrace w g a).any Event.isNewHandler = false ∧
    (generateTrace w g a).any Event.isAttach = false ∧
    registered (generateTrace w g a) = [] := by
  simp [generateTrace, Event.isGenerate, Event.isListen, Event.isNewHandler, Event.isAttach,
    registered]

theorem serveTrace_generate (w : World) (g : Globals) (a : Args) :
    (serveTrace w g a).any Event.isGenerate = false := by
  unfold serveTrace
  cases w.newPermissionsHandler <;> cases w.listenAndServeTLS <;>
    simp [attachRoutes, Event.isGenerate]

theorem serveTrace_listen (w : World) (g : Globals) (a : Args) :
    (serveTrace w g a).any Event.isListen = true ↔ w.newPermissionsHandler = none := by
  unfold serveTrace
  cases w.newPermissionsHandler <;> cases w.listenAndServeTLS <;>
    simp [attachRoutes, Event.isListen]

theorem serveTrace_registered (w : World) (g : Globals) (a : Args) :
    registered (serveTrace w g a) =
      if w.newPermissionsHandler = none then registered attachRoutes else [] := by
  unfold serveTrace
  cases w.newPermissionsHandler <;> cases w.listenAndServeTLS <;>
    simp [registered, registered_append, registered_attachRoutes]

/-- The four shapes of an execution of `run`. -/
theorem run_cases (w : World) (g : Globals) (a : Args) :
    (∃ err, w.newEnvClient = some err ∧
      (run w g a).trace = [Event.newEnvClient, Event.println err,
        Event.println "Failed to start Docker client - shutting down daemon."] ∧
      (run w g a).fs = w.fs) ∨
    (w.newEnvClient = none ∧
      (w.fs (daemonSSLCert w g a) ≠ Entry.notExist ∨
        w.fs (daemonSSLKey w g a) ≠ Entry.notExist) ∧
      (run w g a).trace = checkedTrace w g a ++ serveTrace w g a ∧
      (run w g a).fs = w.fs) ∨
    (∃ err, w.newEnvClient = none ∧ w.fs (daemonSSLCert w g a) = Entry.notExist ∧
      w.fs (daemonSSLKey w g a) = Entry.notExist ∧ w.generateCertificate = some err ∧
      (run w g a).trace = checkedTrace w g a ++ generateTrace w g a ++ [Event.println err] ∧
      (run w g a).fs = w.fs) ∨
    (w.newEnvClient = none ∧ w.fs (daemonSSLCert w g a) = Entry.notExist ∧
      w.fs (daemonSSLKey w g a) = Entry.notExist ∧ w.generateCertificate = none ∧
      (run w g a).trace = checkedTrace w g a ++ generateTrace w g a ++ serveTrace w g a ∧
      (run w g a).fs =
        writeFile (writeFile w.fs (daemonSSLCert w g a) w.certPEM) (daemonSSLKey w g a)
          w.keyPEM) := by
  cases hc : w.newEnvClient with
  | some err => exact Or.inl ⟨err, rfl, run_noClient w g a err hc⟩
  | none =>
    by_cases h1 : w.fs (daemonSSLCert w g a) = Entry.notExist
    · by_cases h2 : w.fs (daemonSSLKey w g a) = Entry.notExist
      · cases hg : w.generateCertificate with
        | some err =>
          exact Or.inr (Or.inr (Or.inl
            ⟨err, rfl, h1, h2, rfl, run_generate_fails w g a err hc h1 h2 hg⟩))
        | none =>
          exact Or.inr (Or.inr (Or.inr ⟨rfl, h1, h2, rfl, run_generate_ok w g a hc h1 h2 hg⟩))
      · exact Or.inr (Or.inl ⟨rfl, Or.inr h2, run_present w g a hc (Or.inr h2)⟩)
    · exact Or.inr (Or.inl ⟨rfl, Or.inl h1, run_present w g a hc (Or.inl h1)⟩)

/-- The routes `run` registers: none (start-up aborted before the attachments) or
all nine attachments of lines 97-119. -/
theorem run_registered (w : World) (g : Globals) (a : Args) :
    registered (run w g a).trace = [] ∨
    registered (run w g a).trace = registered attachRoutes := by
  rcases run_cases w g a with ⟨err, -, ht, -⟩ | ⟨-, -, ht, -⟩ | ⟨err, -, -, -, -, ht, -⟩ |
      ⟨-, -, -, -, ht, -⟩
  · left; rw [ht]; rfl
  · rw [ht, registered_append, (checkedTrace_any w g a).2.2.2.2, serveTrace_registered]
    by_cases h : w.newPermissionsHandler = none <;> simp [h]
  · left
    rw [ht, registered_append, registered_append, (checkedTrace_any w g a).2.2.2.2,
      (generateTrace_any w g a).2.2.2.2]
    rfl
  · rw [ht, registered_append, registered_append, (checkedTrace_any w g a).2.2.2.2,
      (generateTrace_any w g a).2.2.2.2, serveTrace_registered]
    by_cases h : w.newPermissionsHandler = none <;> simp [h]

/-- When `run` reaches `http.ListenAndServeTLS`, all attachments have been made. -/
theorem run_listen_registered (w : World) (g : Globals) (a : Args)
    (h : (run w g a).trace.any Event.isListen = true) :
    registered (run w g a).trace = registered attachRoutes := by
  rcases run_cases w g a with ⟨err, -, ht, -⟩ | ⟨-, -, ht, -⟩ | ⟨err, -, -, -, -, ht, -⟩ |
      ⟨-, -, -, -, ht, -⟩
  · rw [ht] at h; simp [Event.isListen] at h
  · rw [ht, List.any_append, (checkedTrace_any w g a).2.1, Bool.false_or,
      serveTrace_listen] at h
    rw [ht, registered_append, (checkedTrace_any w g a).2.2.2.2, serveTrace_registered]
    simp [h]
  · rw [ht, List.any_append, List.any_append, (checkedTrace_any w g a).2.1,
      (generateTrace_any w g a).2.1] at h
    simp [Event.isListen] at h
  · rw [ht, List.any_append, List.any_append, (checkedTrace_any w g a).2.1,
      (generateTrace_any w g a).2.1, Bool.false_or, Bool.false_or, serveTrace_listen] at h
    rw [ht, registered_append, registered_append, (checkedTrace_any w g a).2.2.2.2,
      (generateTrace_any w g a).2.2.2.2, serveTrace_registered]
    simp [h]

/-- When `run` calls `crypto.GenerateCertificate`. -/
theorem run_generate_iff (w : World) (g : Globals) (a : Args) :
    (run w g a).trace.any Event.isGenerate = true ↔
      (w.newEnvClient = none ∧ w.fs (daemonSSLCert w g a) = Entry.notExist ∧
        w.fs (daemonSSLKey w g a) = Entry.notExist) := by
  rcases run_cases w g a with ⟨err, hc, ht, -⟩ | ⟨hc, hp, ht, -⟩ |
      ⟨err, hc, h1, h2, -, ht, -⟩ | ⟨hc, h1, h2, -, ht, -⟩
  · rw [ht]; simp [Event.isGenerate, hc]
  · rw [ht, List.any_append, (checkedTrace_any w g a).1, serveTrace_generate]
    simp only [Bool.or_self, Bool.false_eq_true, false_iff, not_and]
    intro _ h1 h2
    rcases hp with hp | hp
    · exact hp h1
    · exact hp h2
  · rw [ht, List.any_append, List.any_append, (generateTrace_any w g a).1]
    simp [hc, h1, h2]
  · rw [ht, List.any_append, List.any_append, (generateTrace_any w g a).1]
    simp [hc, h1, h2]

/-- When the SSL directory is not a directory, both files are missing, `os.Stat`
fails with an error that is not a not-exist error, and `run` goes on to
`http.ListenAndServeTLS` without generating anything. -/
theorem run_notDir :
    fileAt notDirWorld.fs (daemonSSLCert notDirWorld (initGlobals "") defaultArgs) = none ∧
    fileAt notDirWorld.fs (daemonSSLKey notDirWorld (initGlobals "") defaultArgs) = none ∧
    (run notDirWorld (initGlobals "") defaultArgs).trace.any Event.isGenerate = false ∧
    (run notDirWorld (initGlobals "") defaultArgs).trace.any Event.isListen = true ∧
    (run notDirWorld (initGlobals "") defaultArgs).fs = notDirWorld.fs := by
  have hr := run_present notDirWorld (initGlobals "") defaultArgs rfl
    (Or.inl (by simp [notDirWorld]))
  refine ⟨rfl, rfl, ?_, ?_, hr.2⟩
  · rw [hr.1, List.any_append, (checkedTrace_any _ _ _).1, serveTrace_generate]
    rfl
  · rw [hr.1, List.any_append, (checkedTrace_any _ _ _).2.1, Bool.false_or,
      serveTrace_listen]
    rfl

/-! ## Lemmas on the goroutines of `downloadDeps` -/

theorem initDeps_inv : initDeps.Inv := by
  simp [DepsState.Inv, initDeps, PullPC.dones, PullPC.pulls]

theorem PullPC.dones_le_one (pc : PullPC) : pc.dones ≤ 1 := by
  cases pc <;> simp [PullPC.dones]

theorem countP_snoc (q : DepsEvent → Bool) (l : List DepsEvent) (e : DepsEvent) :
    (l ++ [e]).countP q = l.countP q + (if q e then 1 else 0) := by
  simp [List.countP_append, List.countP_cons]

/-- A step of `downloadDeps` keeps the invariant and executes one statement. -/
theorem downloadDeps_inv (p : Pulls) (s s' : DepsState)
    (h : downloadDeps p s = some s') (hi : s.Inv) :
    s'.Inv ∧ s'.remaining + 1 = s.remaining := by
  obtain ⟨d, c, k, n, l⟩ := s
  obtain ⟨h1, h2, h3, h4, h5, h6, h7, h8, h9⟩ := hi
  dsimp only at h1 h2 h3 h4 h5 h6 h7 h8 h9
  cases d <;> simp [downloadDeps] at h
  case entered =>
    subst h
    simp only [reduceCtorEq, or_false, true_or, or_true, false_or, iff_true] at h7 h8
    subst h7 h8
    refine ⟨⟨?_, ?_, ?_, ?_, ?_, ?_, ?_, ?_, ?_⟩, ?_⟩ <;>
      simp [-List.countP_eq_zero, countP_snoc, DepsEvent.isDone, DepsEvent.isPull,
        DepsEvent.isClose, DepsState.remaining, DepsPC.remaining, PullPC.remaining, *] <;>
      simp [PullPC.dones, PullPC.pulls] at *
  case added =>
    subst h
    simp only [reduceCtorEq, or_false, true_or, or_true, false_or, iff_true] at h7 h8
    subst h7 h8
    refine ⟨⟨?_, ?_, ?_, ?_, ?_, ?_, ?_, ?_, ?_⟩, ?_⟩ <;>
      simp [-List.countP_eq_zero, countP_snoc, DepsEvent.isDone, DepsEvent.isPull,
        DepsEvent.isClose, DepsState.remaining, DepsPC.remaining, PullPC.remaining, *] <;>
      simp [PullPC.dones, PullPC.pulls] at *
  case spawnedCompose =>
    subst h
    simp only [reduceCtorEq, or_false, true_or, or_true, false_or, iff_true, iff_false] at h7 h8
    subst h8
    refine ⟨⟨?_, ?_, ?_, ?_, ?_, ?_, ?_, ?_, ?_⟩, ?_⟩ <;>
      simp [-List.countP_eq_zero, countP_snoc, DepsEvent.isDone, DepsEvent.isPull,
        DepsEvent.isClose, DepsState.remaining, DepsPC.remaining, PullPC.remaining, *] <;>
      simp [PullPC.dones, PullPC.pulls] at * <;> omega
  case spawnedBoth =>
    obtain ⟨h0, h⟩ := h
    subst h
    have hc : c = PullPC.returned ∧ k = PullPC.returned := by
      cases c <;> cases k <;> simp [PullPC.dones, h0] at h1 <;> simp
    obtain ⟨rfl, rfl⟩ := hc
    refine ⟨⟨?_, ?_, ?_, ?_, ?_, ?_, ?_, ?_, ?_⟩, ?_⟩ <;>
      simp [-List.countP_eq_zero, countP_snoc, DepsEvent.isDone, DepsEvent.isPull,
        DepsEvent.isClose, DepsState.remaining, DepsPC.remaining, PullPC.remaining, *] <;>
      simp [PullPC.dones, PullPC.pulls] at *
  case joined =>
    subst h
    simp only [reduceCtorEq, or_false, true_or, or_true, false_or, iff_true, iff_false,
      true_implies] at h7 h8 h9
    obtain ⟨rfl, rfl⟩ := h9
    refine ⟨⟨?_, ?_, ?_, ?_, ?_, ?_, ?_, ?_, ?_⟩, ?_⟩ <;>
      simp [-List.countP_eq_zero, countP_snoc, DepsEvent.isDone, DepsEvent.isPull,
        DepsEvent.isClose, DepsState.remaining, DepsPC.remaining, PullPC.remaining, *]

/-- A step of the compose `dockerPull` keeps the invariant. -/
theorem pullCompose_inv (p : Pulls) (s s' : DepsState)
    (h : step p Goroutine.dockerPullCompose s = some s') (hi : s.Inv) :
    s'.Inv ∧ s'.remaining + 1 = s.remaining := by
  obtain ⟨d, c, k, n, l⟩ := s
  obtain ⟨i1, i2, e1, e2⟩ := p
  obtain ⟨h1, h2, h3, h4, h5, h6, h7, h8, h9⟩ := hi
  dsimp only at h1 h2 h3 h4 h5 h6 h7 h8 h9
  cases e1 <;> cases c <;> simp [step, dockerPull] at h <;> subst h <;>
    refine ⟨⟨?_, ?_, ?_, ?_, ?_, ?_, ?_, ?_, ?_⟩, ?_⟩ <;>
    simp [-List.countP_eq_zero, countP_snoc, DepsEvent.isDone, DepsEvent.isPull,
      DepsEvent.isClose, DepsState.remaining, DepsPC.remaining, PullPC.remaining, *] <;>
    simp [PullPC.dones, PullPC.pulls] at * <;> first | omega | tauto

/-- A step of the herokuish `dockerPull` keeps the invariant. -/
theorem pullHerokuish_inv (p : Pulls) (s s' : DepsState)
    (h : step p Goroutine.dockerPullHerokuish s = some s') (hi : s.Inv) :
    s'.Inv ∧ s'.remaining + 1 = s.remaining := by
  obtain ⟨d, c, k, n, l⟩ := s
  obtain ⟨i1, i2, e1, e2⟩ := p
  obtain ⟨h1, h2, h3, h4, h5, h6, h7, h8, h9⟩ := hi
  dsimp only at h1 h2 h3 h4 h5 h6 h7 h8 h9
  cases e2 <;> cases k <;> simp [step, dockerPull] at h <;> subst h <;>
    refine ⟨⟨?_, ?_, ?_, ?_, ?_, ?_, ?_, ?_, ?_⟩, ?_⟩ <;>
    simp [-List.countP_eq_zero, countP_snoc, DepsEvent.isDone, DepsEvent.isPull,
      DepsEvent.isClose, DepsState.remaining, DepsPC.remaining, PullPC.remaining, *] <;>
    simp [PullPC.dones, PullPC.pulls] at * <;> first | omega | tauto

/-- A step keeps the invariant and executes exactly one statement. -/
theorem step_inv (p : Pulls) (g : Goroutine) (s s' : DepsState)
    (h : step p g s = some s') (hi : s.Inv) :
    s'.Inv ∧ s'.remaining + 1 = s.remaining := by
  cases g
  · exact downloadDeps_inv p s s' h hi
  · exact pullCompose_inv p s s' h hi
  · exact pullHerokuish_inv p s s' h hi

/-- An execution keeps the invariant; its length is the number of statements
executed. -/
theorem execute_inv (p : Pulls) (sched : List Goroutine) (s s' : DepsState)
    (h : execute p sched s = some s') (hi : s.Inv) :
    s'.Inv ∧ sched.length + s'.remaining = s.remaining := by
  induction sched generalizing s with
  | nil =>
    simp only [execute, Option.some.injEq] at h
    subst h
    exact ⟨hi, by simp⟩
  | cons g gs ih =>
    simp only [execute] at h
    cases hs : step p g s with
    | none => simp [hs] at h
    | some t =>
      rw [hs] at h
      have h1 := step_inv p g s t hs hi
      have h2 := ih t h h1.1
      refine ⟨h2.1, ?_⟩
      simp only [List.length_cons]
      omega

/-- No deadlock: until `downloadDeps` has closed the client some goroutine can
move; in particular `wait.Wait()` is never blocked with both pulls returned. -/
theorem step_progress (p : Pulls) (s : DepsState) (hi : s.Inv)
    (hd : s.deps ≠ DepsPC.closed) : ∃ g s', step p g s = some s' := by
  obtain ⟨d, c, k, n, l⟩ := s
  obtain ⟨i1, i2, e1, e2⟩ := p
  obtain ⟨h1, -, -, -, -, -, h7, h8, -⟩ := hi
  dsimp only at h1 h7 h8 hd
  cases d
  case closed => exact absurd rfl hd
  case spawnedBoth =>
    simp only [reduceCtorEq, or_self, iff_false] at h7 h8
    cases c
    case unspawned => exact absurd rfl h7
    case returned =>
      cases k
      case unspawned => exact absurd rfl h8
      case returned =>
        refine ⟨Goroutine.downloadDeps, ?_⟩
        simp [step, downloadDeps, h1, PullPC.dones]
      all_goals
        refine ⟨Goroutine.dockerPullHerokuish, ?_⟩
        cases e2 <;> simp [step, dockerPull]
    all_goals
      refine ⟨Goroutine.dockerPullCompose, ?_⟩
      cases e1 <;> simp [step, dockerPull]
  all_goals
    refine ⟨Goroutine.downloadDeps, ?_⟩
    simp [step, downloadDeps]

/-- Once `downloadDeps` has closed the client nothing is left to run. -/
theorem step_closed (p : Pulls) (s : DepsState) (hi : s.Inv)
    (hd : s.deps = DepsPC.closed) (g : Goroutine) : step p g s = none := by
  obtain ⟨d, c, k, n, l⟩ := s
  obtain ⟨-, -, -, -, -, -, -, -, h9⟩ := hi
  dsimp only at h9 hd
  subst hd
  obtain ⟨rfl, rfl⟩ := h9 (Or.inr rfl)
  cases g <;> simp [step, downloadDeps, dockerPull]

/-- The sequential schedule runs `downloadDeps` to its end. -/
theorem execute_sequential (p : Pulls) :
    ∃ s, execute p sequentialSchedule initDeps = some s ∧ s.deps = DepsPC.closed := by
  obtain ⟨i1, i2, e1, e2⟩ := p
  cases e1 <;> cases e2 <;>
    simp [sequentialSchedule, execute, step, downloadDeps, dockerPull, initDeps]

/-! ## Lemmas on `GetSSHRemoteURL` -/

/-- The model passes `TestGetSSHRemoteURL`: every variation maps into the three SSH URLs. -/
theorem GetSSHRemoteURL_test : ∀ url ∈ remoteURLVariations, GetSSHRemoteURL url ∈ remoteURLVariations.take 3 := by
  decide

theorem dropLeading_append (pre rest : List Char) : dropLeading pre (pre ++ rest) = some rest := by
  induction pre with
  | nil => cases rest <;> rfl
  | cons p ps ih => simp [dropLeading, ih]

theorem hostOf_userinfo (user host : List Char) (h : '@' ∉ host) :
    hostOf (user ++ '@' :: host) = host := by
  induction user with
  | nil => simp [hostOf, h]
  | cons u us ih => simp [hostOf, ih]

theorem hostOf_plain (host : List Char) (h : '@' ∉ host) : hostOf host = host := by
  cases host with
  | nil => rfl
  | cons c cs =>
    simp only [List.mem_cons, not_or] at h
    simp [hostOf, h.2, Ne.symm h.1]

theorem takeWhile_slash (auth path : List Char) (h : '/' ∉ auth) :
    (auth ++ '/' :: path).takeWhile notSlash = auth := by
  induction auth with
  | nil => simp [notSlash]
  | cons c cs ih =>
    simp only [List.mem_cons, not_or] at h
    have hc : notSlash c = true := by simp [notSlash, Ne.symm h.1]
    simp [List.takeWhile, hc, ih h.2]

theorem dropWhile_slash (auth path : List Char) (h : '/' ∉ auth) :
    (auth ++ '/' :: path).dropWhile notSlash = '/' :: path := by
  induction auth with
  | nil => simp [notSlash]
  | cons c cs ih =>
    simp only [List.mem_cons, not_or] at h
    have hc : notSlash c = true := by simp [notSlash, Ne.symm h.1]
    simp [List.dropWhile, hc, ih h.2]

theorem sshForm_plain (host path : List Char) (h1 : '@' ∉ host) (h2 : '/' ∉ host) :
    sshForm (host ++ '/' :: path) = "git@".toList ++ host ++ ':' :: path := by
  simp [sshForm, takeWhile_slash _ _ h2, dropWhile_slash _ _ h2, hostOf_plain _ h1]

theorem sshForm_user (user host path : List Char) (h0 : '/' ∉ user) (h1 : '@' ∉ host)
    (h2 : '/' ∉ host) :
    sshForm (user ++ '@' :: host ++ '/' :: path) = "git@".toList ++ host ++ ':' :: path := by
  have h : '/' ∉ user ++ '@' :: host := by simp [h0, h2]
  have e : user ++ '@' :: host ++ '/' :: path = (user ++ '@' :: host) ++ '/' :: path := by simp
  rw [e]
  simp only [sshForm, takeWhile_slash _ _ h, dropWhile_slash _ _ h, hostOf_userinfo _ _ h1]
  simp

theorem knownHosts_chars (host : String) (h : host ∈ knownHosts) :
    '@' ∉ host.toList ∧ '/' ∉ host.toList := by
  simp only [knownHosts, List.mem_cons, List.mem_singleton, List.not_mem_nil, or_false] at h
  rcases h with rfl | rfl | rfl <;> decide

theorem toList_lit_append (a b : String) : (a ++ b).toList = a.toList ++ b.toList := by
  simp [String.toList]

theorem GetSSHRemoteURL_https (host path : String) (h1 : '@' ∉ host.toList)
    (h2 : '/' ∉ host.toList) :
    GetSSHRemoteURL ("https://" ++ (host ++ ("/" ++ path))) = "git@" ++ (host ++ (":" ++ path)) := by
  have e : ("https://" ++ (host ++ ("/" ++ path))).toList =
      "https://".toList ++ (host.toList ++ '/' :: path.toList) := by
    simp [toList_lit_append]
  have e0 : dropLeading "git@".toList ("https://" ++ (host ++ ("/" ++ path))).toList = none := by
    rw [e]; simp [dropLeading]
  unfold GetSSHRemoteURL
  rw [e0]
  simp only
  rw [e, dropLeading_append]
  simp only
  rw [sshForm_plain _ _ h1 h2]
  apply String.ext
  simp [toList_lit_append]

theorem GetSSHRemoteURL_git (host path : String) (h1 : '@' ∉ host.toList)
    (h2 : '/' ∉ host.toList) :
    GetSSHRemoteURL ("git://" ++ (host ++ ("/" ++ path))) = "git@" ++ (host ++ (":" ++ path)) := by
  have e : ("git://" ++ (host ++ ("/" ++ path))).toList =
      "git://".toList ++ (host.toList ++ '/' :: path.toList) := by
    simp [toList_lit_append]
  have e0 : dropLeading "git@".toList ("git://" ++ (host ++ ("/" ++ path))).toList = none := by
    rw [e]; simp [dropLeading]
  have e1 : dropLeading "https://".toList ("git://" ++ (host ++ ("/" ++ path))).toList
      = none := by
    rw [e]; simp [dropLeading]
  unfold GetSSHRemoteURL
  rw [e0]
  simp only
  rw [e1]
  simp only
  rw [e, dropLeading_append]
  simp only
  rw [sshForm_plain _ _ h1 h2]
  apply String.ext
  simp [toList_lit_append]

theorem GetSSHRemoteURL_user (user host path : String) (h0 : '/' ∉ user.toList)
    (h1 : '@' ∉ host.toList) (h2 : '/' ∉ host.toList) :
    GetSSHRemoteURL ("https://" ++ (user ++ ("@" ++ (host ++ ("/" ++ path))))) =
      "git@" ++ (host ++ (":" ++ path)) := by
  have e : ("https://" ++ (user ++ ("@" ++ (host ++ ("/" ++ path))))).toList =
      "https://".toList ++ (user.toList ++ '@' :: host.toList ++ '/' :: path.toList) := by
    simp [toList_lit_append]
  have e0 : dropLeading "git@".toList
      ("https://" ++ (user ++ ("@" ++ (host ++ ("/" ++ path))))).toList = none := by
    rw [e]; simp [dropLeading]
  unfold GetSSHRemoteURL
  rw [e0]
  simp only
  rw [e, dropLeading_append]
  simp only
  rw [sshForm_user _ _ _ h0 h1 h2]
  apply String.ext
  simp [toList_lit_append]

theorem GetSSHRemoteURL_ssh (rest : String) :
    GetSSHRemoteURL ("git@" ++ rest) = "git@" ++ rest := by
  have e : ("git@" ++ rest).toList = "git@".toList ++ rest.toList := by
    simp [toList_lit_append]
  unfold GetSSHRemoteURL
  rw [e, dropLeading_append]

theorem string_append_cancel_left (a b c : String) (h : a ++ b = a ++ c) : b = c := by
  have h' := congrArg String.toList h
  simp only [toList_lit_append, List.append_cancel_left_eq] at h'
  exact String.ext h'

/-! ## Lemmas on `GenerateToken` -/

set_option maxRecDepth 100000 in
/-- The model reproduces the token `TestGenerateToken` expects. -/
theorem signedString_test : signedString testPrivateKey = testToken := by decide!

set_option maxRecDepth 100000 in
/-- The model passes the `NotEqual` assertion of `TestGenerateToken`. -/
theorem signedString_other : signedString otherPrivateKey ≠ signedString testPrivateKey := by
  decide!

theorem signingString_eq :
    SigningString = "eyJhbGciOiJIUzI1NiIsInR5cCI6IkpXVCJ9.e30".toList := by
  decide

/-- Whatever the key, the payload segment is the encoded empty object. -/
theorem payloadSegment_signedString (key : List Byte) :
    payloadSegment (signedString key) = ['e', '3', '0'] := by
  unfold payloadSegment signedString
  rw [signingString_eq]
  rfl

theorem decode_e30 : DecodeSegment ['e', '3', '0'] = some [123, 125] := by decide

theorem tokenClaims_signedString (key : List Byte) :
    tokenClaims (signedString key) = some ['\x7b', '\x7d'] := by
  rw [tokenClaims, payloadSegment_signedString, decode_e30]
  decide

theorem hmacKeyBlock_zero (key : List Nat) (h : key.length < 64) :
    hmacKeyBlock (key ++ [0]) = hmacKeyBlock key := by
  have h1 : ¬ key.length + 1 > 64 := by omega
  have h2 : ¬ key.length > 64 := by omega
  have e : 64 - key.length = (64 - (key.length + 1)) + 1 := by omega
  simp only [hmacKeyBlock, List.length_append, List.length_singleton, if_neg h1, if_neg h2,
    List.append_assoc, List.singleton_append]
  rw [e, List.replicate_succ]

/-- A key shorter than the HMAC block and the same key followed by a zero byte
sign alike. -/
theorem signedString_zero (key : List Byte) (h : key.length < 64) :
    signedString (key ++ [0]) = signedString key := by
  have e : (key ++ [(0 : Byte)]).map Fin.val = key.map Fin.val ++ [0] := by simp
  have hk : hmacKeyBlock (key.map Fin.val ++ [0]) = hmacKeyBlock (key.map Fin.val) :=
    hmacKeyBlock_zero _ (by simpa using h)
  simp only [signedString, hmacSHA256, e, hk]

/-! ## Claims on `run` -/

/-- C1: every route `run` registers that the route table of the specification
lists is attached at the tier the table gives (`/status`, `/logs` user-restricted;
`/up`, `/down`, `/reset`, `/env` admin-restricted; `/webhook`, `/` public); a mutating
route is only ever attached admin-restricted, never public or user-restricted; and
an execution that reaches `http.ListenAndServeTLS` has registered every route of
the table. -/
theorem run_routes_match_table (w : World) (g : Globals) (a : Args) :
    (∀ p t, (p, t) ∈ registered (run w g a).trace →
      ∀ t', (p, t') ∈ specRouteTable → t = t') ∧
    (∀ p t, (p, t) ∈ registered (run w g a).trace → p ∈ mutatingRoutes →
      t = Tier.admin ∧ t ≠ Tier.public ∧ t ≠ Tier.user) ∧
    ((run w g a).trace.any Event.isListen = true →
      ∀ r ∈ specRouteTable, r ∈ registered (run w g a).trace) := by
  have key : ∀ regs : List (String × Tier), regs = [] ∨ regs = registered attachRoutes →
      (∀ p t, (p, t) ∈ regs → ∀ t', (p, t') ∈ specRouteTable → t = t') ∧
      (∀ p t, (p, t) ∈ regs → p ∈ mutatingRoutes →
        t = Tier.admin ∧ t ≠ Tier.public ∧ t ≠ Tier.user) := by
    intro regs h
    rcases h with h | h
    · subst h; simp
    · subst h
      rw [registered_attachRoutes]
      refine ⟨?_, ?_⟩
      · intro p t hp t' ht'
        simp only [List.mem_cons, Prod.mk.injEq, List.mem_singleton, List.not_mem_nil,
          or_false, specRouteTable] at hp ht'
        rcases hp with ⟨rfl, rfl⟩ | ⟨rfl, rfl⟩ | ⟨rfl, rfl⟩ | ⟨rfl, rfl⟩ | ⟨rfl, rfl⟩ |
          ⟨rfl, rfl⟩ | ⟨rfl, rfl⟩ | ⟨rfl, rfl⟩ | ⟨rfl, rfl⟩ <;> simp at ht' <;> simp [ht']
      · intro p t hp hm
        simp only [List.mem_cons, Prod.mk.injEq, List.mem_singleton, List.not_mem_nil,
          or_false, mutatingRoutes] at hp hm
        rcases hp with ⟨rfl, rfl⟩ | ⟨rfl, rfl⟩ | ⟨rfl, rfl⟩ | ⟨rfl, rfl⟩ | ⟨rfl, rfl⟩ |
          ⟨rfl, rfl⟩ | ⟨rfl, rfl⟩ | ⟨rfl, rfl⟩ | ⟨rfl, rfl⟩ <;> simp at hm <;> simp
  refine ⟨(key _ (run_registered w g a)).1, (key _ (run_registered w g a)).2, ?_⟩
  intro h r hr
  rw [run_listen_registered w g a h, registered_attachRoutes]
  simp only [specRouteTable, List.mem_cons, List.mem_singleton, List.not_mem_nil,
    or_false] at hr
  rcases hr with rfl | rfl | rfl | rfl | rfl | rfl | rfl | rfl <;> simp

/-- C2, as the specification words it, fails: with `daemon.cert` on disk and
`daemon.key` missing, one of the two files is missing and `run` does not call
`crypto.GenerateCertificate`. -/
theorem run_one_missing_no_generate :
    ¬ ((run certOnlyWorld (initGlobals "") defaultArgs).trace.any Event.isGenerate = true ↔
        (fileAt certOnlyWorld.fs
            (daemonSSLCert certOnlyWorld (initGlobals "") defaultArgs) = none ∨
         fileAt certOnlyWorld.fs
            (daemonSSLKey certOnlyWorld (initGlobals "") defaultArgs) = none)) := by
  have hk : fileAt certOnlyWorld.fs
      (daemonSSLKey certOnlyWorld (initGlobals "") defaultArgs) = none := by
    rw [defaultArgs_key _ rfl]; simp [certOnlyWorld, fileAt, Entry.content]
  have hc : certOnlyWorld.fs (daemonSSLCert certOnlyWorld (initGlobals "") defaultArgs)
      ≠ Entry.notExist := by
    rw [defaultArgs_cert _ rfl]; simp [certOnlyWorld]
  intro h
  have hg := h.2 (Or.inr hk)
  rw [(run_present certOnlyWorld _ _ rfl (Or.inl hc)).1, List.any_append,
    (checkedTrace_any _ _ _).1, serveTrace_generate] at hg
  simp at hg

/-- C2, amended: `run` calls `crypto.GenerateCertificate` if and only if the Docker
client was created and `os.Stat` fails with a not-exist error for both `daemon.cert`
and `daemon.key` (`os.IsNotExist` holds of both errors); so it generates only when
both files are missing, and it does not generate when one of them is there or when
`os.Stat` fails with another error. -/
theorem run_generates_iff_both_missing (w : World) (g : Globals) (a : Args) :
    ((run w g a).trace.any Event.isGenerate = true ↔
      (w.newEnvClient = none ∧
        osIsNotExist (osStat w.fs (daemonSSLCert w g a)) = true ∧
        osIsNotExist (osStat w.fs (daemonSSLKey w g a)) = true)) ∧
    ((run w g a).trace.any Event.isGenerate = true →
      fileAt w.fs (daemonSSLCert w g a) = none ∧ fileAt w.fs (daemonSSLKey w g a) = none) ∧
    (fileAt w.fs (daemonSSLCert w g a) ≠ none ∨ fileAt w.fs (daemonSSLKey w g a) ≠ none ∨
        osStat w.fs (daemonSSLCert w g a) = some StatError.other ∨
        osStat w.fs (daemonSSLKey w g a) = some StatError.other →
      (run w g a).trace.any Event.isGenerate = false) := by
  have h := run_generate_iff w g a
  refine ⟨?_, ?_, ?_⟩
  · rw [h, osIsNotExist_osStat, osIsNotExist_osStat]
  · intro hg
    obtain ⟨-, h1, h2⟩ := h.1 hg
    simp [fileAt, h1, h2, Entry.content]
  · intro hx
    cases hg : (run w g a).trace.any Event.isGenerate with
    | false => rfl
    | true =>
      obtain ⟨-, h1, h2⟩ := h.1 hg
      simp [fileAt, osStat, h1, h2, Entry.content] at hx

/-- C3, as stated, fails: with `daemon.cert` on disk and `daemon.key` missing, `run`
reaches `http.ListenAndServeTLS` while `daemon.key` still does not exist. -/
theorem run_listens_with_key_missing :
    (run certOnlyWorld (initGlobals "") defaultArgs).trace.any Event.isListen = true ∧
    fileAt (run certOnlyWorld (initGlobals "") defaultArgs).fs
      (daemonSSLKey certOnlyWorld (initGlobals "") defaultArgs) = none := by
  have hk : fileAt certOnlyWorld.fs
      (daemonSSLKey certOnlyWorld (initGlobals "") defaultArgs) = none := by
    rw [defaultArgs_key _ rfl]; simp [certOnlyWorld, fileAt, Entry.content]
  have hc : certOnlyWorld.fs (daemonSSLCert certOnlyWorld (initGlobals "") defaultArgs)
      ≠ Entry.notExist := by
    rw [defaultArgs_cert _ rfl]; simp [certOnlyWorld]
  have hr := run_present certOnlyWorld (initGlobals "") defaultArgs rfl (Or.inl hc)
  refine ⟨?_, ?_⟩
  · rw [hr.1, List.any_append, (checkedTrace_any _ _ _).2.1, Bool.false_or, serveTrace_listen]
    rfl
  · rw [hr.2]; exact hk

/-- C3, amended: when at start-up `daemon.cert` and `daemon.key` both exist, or
`os.Stat` fails with a not-exist error for both, every execution of `run` that
reaches `http.ListenAndServeTLS` has both files in place at the configured paths
(a successful `crypto.GenerateCertificate` writes both; `run` changes the file
system nowhere else, so the file system it ends with is the one at the moment of
the call). -/
theorem run_listen_tls_ready (w : World) (g : Globals) (a : Args)
    (hstart :
      (fileAt w.fs (daemonSSLCert w g a) ≠ none ∧ fileAt w.fs (daemonSSLKey w g a) ≠ none) ∨
      (osIsNotExist (osStat w.fs (daemonSSLCert w g a)) = true ∧
        osIsNotExist (osStat w.fs (daemonSSLKey w g a)) = true))
    (hl : (run w g a).trace.any Event.isListen = true) :
    fileAt (run w g a).fs (daemonSSLCert w g a) ≠ none ∧
    fileAt (run w g a).fs (daemonSSLKey w g a) ≠ none := by
  rw [osIsNotExist_osStat, osIsNotExist_osStat] at hstart
  rcases run_cases w g a with ⟨err, hc, ht, -⟩ | ⟨hc, hp, ht, hf⟩ |
      ⟨err, hc, h1, h2, -, ht, -⟩ | ⟨hc, h1, h2, -, ht, hf⟩
  · rw [ht] at hl; simp [Event.isListen] at hl
  · rw [hf]
    rcases hstart with hs | hs
    · exact hs
    · rcases hp with hp | hp
      · exact absurd hs.1 hp
      · exact absurd hs.2 hp
  · rw [ht, List.any_append, List.any_append, (checkedTrace_any w g a).2.1,
      (generateTrace_any w g a).2.1] at hl
    simp [Event.isListen] at hl
  · rw [hf]
    constructor
    · simp only [fileAt, writeFile]; split_ifs <;> simp [Entry.content]
    · simp [fileAt, writeFile, Entry.content]

/-- Instance for C3 (amended): nothing on disk, generation succeeds, and `run`
listens with both files written. -/
theorem run_listen_tls_ready_witness :
    (osIsNotExist (osStat freshWorld.fs
        (daemonSSLCert freshWorld (initGlobals "") defaultArgs)) = true ∧
      osIsNotExist (osStat freshWorld.fs
        (daemonSSLKey freshWorld (initGlobals "") defaultArgs)) = true) ∧
    (run freshWorld (initGlobals "") defaultArgs).trace.any Event.isListen = true ∧
    fileAt (run freshWorld (initGlobals "") defaultArgs).fs
      (daemonSSLCert freshWorld (initGlobals "") defaultArgs) ≠ none ∧
    fileAt (run freshWorld (initGlobals "") defaultArgs).fs
      (daemonSSLKey freshWorld (initGlobals "") defaultArgs) ≠ none := by
  have hl : (run freshWorld (initGlobals "") defaultArgs).trace.any Event.isListen = true := by
    rw [(run_generate_ok freshWorld (initGlobals "") defaultArgs rfl rfl rfl rfl).1,
      List.any_append, List.any_append, (checkedTrace_any _ _ _).2.1,
      (generateTrace_any _ _ _).2.1, Bool.false_or, Bool.false_or, serveTrace_listen]
    rfl
  exact ⟨⟨rfl, rfl⟩, hl,
    run_listen_tls_ready freshWorld (initGlobals "") defaultArgs (Or.inr ⟨rfl, rfl⟩) hl⟩

/-- C4: when `run` attempts certificate generation and `crypto.GenerateCertificate`
returns an error, `run` prints the error and returns: the trace ends with that
print, and contains no `auth.NewPermissionsHandler` call, no route attachment and
no `http.ListenAndServeTLS` call. -/
theorem run_generate_error_aborts (w : World) (g : Globals) (a : Args) (err : String)
    (hgen : (run w g a).trace.any Event.isGenerate = true)
    (herr : w.generateCertificate = some err) :
    (run w g a).trace = checkedTrace w g a ++ generateTrace w g a ++ [Event.println err] ∧
    (run w g a).trace.getLast? = some (Event.println err) ∧
    (run w g a).trace.any Event.isNewHandler = false ∧
    (run w g a).trace.any Event.isAttach = false ∧
    registered (run w g a).trace = [] ∧
    (run w g a).trace.any Event.isListen = false := by
  have h := (run_generate_iff w g a).1 hgen
  have ht := (run_generate_fails w g a err h.1 h.2.1 h.2.2 herr).1
  rw [ht]
  refine ⟨rfl, by simp, ?_, ?_, ?_, ?_⟩
  · simp [List.any_append, (checkedTrace_any w g a).2.2.1, (generateTrace_any w g a).2.2.1,
      Event.isNewHandler]
  · simp [List.any_append, (checkedTrace_any w g a).2.2.2.1,
      (generateTrace_any w g a).2.2.2.1, Event.isAttach]
  · simp [registered_append, (checkedTrace_any w g a).2.2.2.2,
      (generateTrace_any w g a).2.2.2.2, registered]
  · simp [List.any_append, (checkedTrace_any w g a).2.1, (generateTrace_any w g a).2.1,
      Event.isListen]

/-- Instance for C4: nothing on disk and generation fails. -/
theorem run_generate_error_aborts_witness :
    (run failingWorld (initGlobals "") defaultArgs).trace.any Event.isGenerate = true ∧
    failingWorld.generateCertificate = some "crypto: generation failed" ∧
    (run failingWorld (initGlobals "") defaultArgs).trace.getLast? =
      some (Event.println "crypto: generation failed") ∧
    (run failingWorld (initGlobals "") defaultArgs).trace.any Event.isNewHandler = false ∧
    (run failingWorld (initGlobals "") defaultArgs).trace.any Event.isAttach = false ∧
    (run failingWorld (initGlobals "") defaultArgs).trace.any Event.isListen = false := by
  have hgen : (run failingWorld (initGlobals "") defaultArgs).trace.any Event.isGenerate
      = true :=
    (run_generate_iff failingWorld (initGlobals "") defaultArgs).2
      ⟨rfl, rfl, rfl⟩
  have h := run_generate_error_aborts failingWorld (initGlobals "") defaultArgs
    "crypto: generation failed" hgen rfl
  exact ⟨hgen, rfl, h.2.1, h.2.2.1, h.2.2.2.1, h.2.2.2.2.2⟩

/-- C5: when `daemon.cert` and `daemon.key` both exist at start-up, `run` never
calls `crypto.GenerateCertificate` and the file system it leaves is the one it
found, for every host, port and directory argument and whatever `os.Stat`
answers. -/
theorem run_both_present_untouched (w : World) (g : Globals) (a : Args)
    (h1 : fileAt w.fs (daemonSSLCert w g a) ≠ none)
    (h2 : fileAt w.fs (daemonSSLKey w g a) ≠ none) :
    (run w g a).trace.any Event.isGenerate = false ∧ (run w g a).fs = w.fs := by
  rcases run_cases w g a with ⟨err, hc, ht, hf⟩ | ⟨hc, hp, ht, hf⟩ |
      ⟨err, hc, h1', h2', -, ht, -⟩ | ⟨hc, h1', h2', -, ht, hf⟩
  · rw [ht]; exact ⟨by simp [Event.isGenerate], hf⟩
  · rw [ht, List.any_append, (checkedTrace_any w g a).1, serveTrace_generate]
    exact ⟨rfl, hf⟩
  · exact absurd (by simp [fileAt, h1', Entry.content]) h1
  · exact absurd (by simp [fileAt, h2', Entry.content]) h2

/-- Instance for C5: both files on disk. -/
theorem run_both_present_untouched_witness :
    fileAt bothWorld.fs (daemonSSLCert bothWorld (initGlobals "") defaultArgs)
      = some "CERT" ∧
    fileAt bothWorld.fs (daemonSSLKey bothWorld (initGlobals "") defaultArgs)
      = some "KEY" ∧
    (run bothWorld (initGlobals "") defaultArgs).trace.any Event.isGenerate = false ∧
    (run bothWorld (initGlobals "") defaultArgs).fs = bothWorld.fs := by
  have hc : fileAt bothWorld.fs (daemonSSLCert bothWorld (initGlobals "") defaultArgs)
      = some "CERT" := by
    rw [defaultArgs_cert _ rfl]; simp [bothWorld, fileAt, Entry.content]
  have hk : fileAt bothWorld.fs (daemonSSLKey bothWorld (initGlobals "") defaultArgs)
      = some "KEY" := by
    rw [defaultArgs_key _ rfl]; simp [bothWorld, fileAt, Entry.content]
  exact ⟨hc, hk, run_both_present_untouched bothWorld (initGlobals "") defaultArgs
    (by rw [hc]; simp) (by rw [hk]; simp)⟩

/-! ## Claim on `downloadDeps` -/

/-- C6: for every outcome of the two image pulls (`p` ranges over success and
failure of each), in every interleaving of `downloadDeps` and its two `dockerPull`
goroutines the wait group counter never goes negative, each `dockerPull` calls
`wait.Done()` at most once, some goroutine can always move until the client is
closed (the join is never blocked for good), `cli.Close()` only happens after both
`wait.Done()` calls, and when nothing can move any more both `cli.ImagePull` calls
have been made once, both `wait.Done()` calls have been made exactly once and the
client has been closed once; such a complete execution exists. `run` itself does not
look at the pulls: once the Docker client exists it goes on to the certificate
check, and to `http.ListenAndServeTLS` when generation and handler creation do not
fail. -/
theorem downloadDeps_joins_whatever_pulls (p : Pulls) :
    (∀ sched s, execute p sched initDeps = some s →
      0 ≤ s.counter ∧
      sched.length + s.remaining = 13 ∧
      s.log.countP (DepsEvent.isDone Goroutine.dockerPullCompose) ≤ 1 ∧
      s.log.countP (DepsEvent.isDone Goroutine.dockerPullHerokuish) ≤ 1 ∧
      (s.deps ≠ DepsPC.closed → ∃ g s', step p g s = some s') ∧
      (0 < s.log.countP DepsEvent.isClose →
        s.log.countP (DepsEvent.isDone Goroutine.dockerPullCompose) = 1 ∧
        s.log.countP (DepsEvent.isDone Goroutine.dockerPullHerokuish) = 1) ∧
      ((∀ g, step p g s = none) →
        s.log.countP (DepsEvent.isPull Goroutine.dockerPullCompose) = 1 ∧
        s.log.countP (DepsEvent.isPull Goroutine.dockerPullHerokuish) = 1 ∧
        s.log.countP (DepsEvent.isDone Goroutine.dockerPullCompose) = 1 ∧
        s.log.countP (DepsEvent.isDone Goroutine.dockerPullHerokuish) = 1 ∧
        s.counter = 0 ∧
        s.log.countP DepsEvent.isClose = 1)) ∧
    (∃ s, execute p sequentialSchedule initDeps = some s ∧ s.deps = DepsPC.closed) ∧
    (∀ (w : World) (g : Globals) (a : Args), w.newEnvClient = none →
      Event.goDownloadDeps ∈ (run w g a).trace ∧
      Event.osStat (daemonSSLCert w g a) ∈ (run w g a).trace ∧
      Event.osStat (daemonSSLKey w g a) ∈ (run w g a).trace ∧
      (w.generateCertificate = none → w.newPermissionsHandler = none →
        (run w g a).trace.any Event.isListen = true)) := by
  refine ⟨?_, execute_sequential p, ?_⟩
  · intro sched s h
    obtain ⟨hi, hlen⟩ := execute_inv p sched initDeps s h initDeps_inv
    have hclosed : s.deps = DepsPC.closed →
        s.compose = PullPC.returned ∧ s.herokuish = PullPC.returned :=
      fun hd => hi.2.2.2.2.2.2.2.2 (Or.inr hd)
    obtain ⟨h1, h2, h3, h4, h5, h6, h7, h8, -⟩ := id hi
    refine ⟨?_, hlen, ?_, ?_, step_progress p s hi, ?_, ?_⟩
    · rw [h1]
      by_cases hd : s.deps = DepsPC.entered
      · rw [h7.2 (Or.inl hd), h8.2 (Or.inl hd), if_pos hd]
        simp [PullPC.dones]
      · rw [if_neg hd]
        have hc := PullPC.dones_le_one s.compose
        have hk := PullPC.dones_le_one s.herokuish
        omega
    · rw [h2]; cases s.compose <;> simp [PullPC.dones]
    · rw [h3]; cases s.herokuish <;> simp [PullPC.dones]
    · intro hpos
      have hd : s.deps = DepsPC.closed := by
        by_contra hne
        rw [h6, if_neg hne] at hpos
        exact absurd hpos (by decide)
      obtain ⟨hc, hk⟩ := hclosed hd
      rw [h2, h3, hc, hk]
      exact ⟨rfl, rfl⟩
    · intro hstuck
      have hd : s.deps = DepsPC.closed := by
        by_contra hne
        obtain ⟨g, s', hs⟩ := step_progress p s hi hne
        rw [hstuck g] at hs
        exact absurd hs (by simp)
      obtain ⟨hc, hk⟩ := hclosed hd
      rw [h1, h2, h3, h4, h5, h6, hc, hk, hd]
      simp [PullPC.dones, PullPC.pulls]
  · intro w g a hc
    rcases run_cases w g a with ⟨err, hc', -, -⟩ | ⟨-, -, ht, -⟩ | ⟨err, -, -, -, hg, ht, -⟩ |
        ⟨-, -, -, -, ht, -⟩
    · rw [hc] at hc'; exact absurd hc' (by simp)
    · rw [ht]
      refine ⟨by simp [checkedTrace], by simp [checkedTrace], by simp [checkedTrace], ?_⟩
      intro _ hh
      rw [List.any_append, (serveTrace_listen w g a).2 hh, Bool.or_true]
    · rw [ht]
      refine ⟨by simp [checkedTrace], by simp [checkedTrace], by simp [checkedTrace], ?_⟩
      intro hg'
      rw [hg] at hg'; exact absurd hg' (by simp)
    · rw [ht]
      refine ⟨by simp [checkedTrace], by simp [checkedTrace], by simp [checkedTrace], ?_⟩
      intro _ hh
      rw [List.any_append, (serveTrace_listen w g a).2 hh, Bool.or_true]

/-! ## Claim on the root route -/

/-- C10: the only attachment `run` makes at `"/"` is public, with the handler that
only writes status 200; served through the permissions handler this route answers
every request (any method, headers, body, whatever the token check would say) with
status 200, no header and an empty body, without consulting the token check; and
`rootHandler` of `cmd/daemon.go` answers every request with status 200,
`Content-Type: text/html` and the body `Hello, World!`. -/
theorem root_route_always_ok (authenticate : Request → Except AuthError Role)
    (r : Request) :
    (∀ t h, Event.attach t "/" h ∈ attachRoutes → t = Tier.public ∧ h = RouteHandler.rootOk) ∧
    (∀ (w : World) (g : Globals) (a : Args),
      (run w g a).trace.any Event.isListen = true →
        ("/", Tier.public) ∈ registered (run w g a).trace) ∧
    RouteHandler.rootOk.func? = some rootOkFunc ∧
    servePermissions authenticate Tier.public rootOkFunc ResponseWriter.fresh r =
      { header := [], status := some 200, sentHeader := [], body := "" } ∧
    rootHandler ResponseWriter.fresh r =
      { header := [("Content-Type", "text/html")], status := some 200,
        sentHeader := [("Content-Type", "text/html")], body := "Hello, World!" } := by
  refine ⟨?_, ?_, rfl, rfl, ?_⟩
  · intro t h hm
    simp [attachRoutes] at hm
    exact hm
  · intro w g a hl
    rw [run_listen_registered w g a hl, registered_attachRoutes]
    simp
  · simp [rootHandler, ResponseWriter.fresh, ResponseWriter.headerSet,
      ResponseWriter.writeHeader, ResponseWriter.write, StatusOK]

/-! ## Claim on `GetSSHRemoteURL` -/

/-- C9: for every host among github.com, gitlab.com and bitbucket.org, every
organisation and repository name and every user name without `/`, the `https://`,
`git://` and `https://user@` forms of `host/org/repo.git` all map to
`git@host:org/repo.git`, a URL already in that SSH form is returned unchanged (so the
SSH and HTTPS forms of one repository have the same normal form), and forms of
different repository paths have different normal forms. -/
theorem GetSSHRemoteURL_normalises (host user org repo : String)
    (hh : host ∈ knownHosts) (hu : '/' ∉ user.toList) :
    GetSSHRemoteURL ("https://" ++ host ++ "/" ++ org ++ "/" ++ repo ++ ".git") =
      "git@" ++ host ++ ":" ++ org ++ "/" ++ repo ++ ".git" ∧
    GetSSHRemoteURL ("git://" ++ host ++ "/" ++ org ++ "/" ++ repo ++ ".git") =
      "git@" ++ host ++ ":" ++ org ++ "/" ++ repo ++ ".git" ∧
    GetSSHRemoteURL ("https://" ++ user ++ "@" ++ host ++ "/" ++ org ++ "/" ++ repo ++ ".git") =
      "git@" ++ host ++ ":" ++ org ++ "/" ++ repo ++ ".git" ∧
    GetSSHRemoteURL ("git@" ++ host ++ ":" ++ org ++ "/" ++ repo ++ ".git") =
      "git@" ++ host ++ ":" ++ org ++ "/" ++ repo ++ ".git" ∧
    GetSSHRemoteURL ("git@" ++ host ++ ":" ++ org ++ "/" ++ repo ++ ".git") =
      GetSSHRemoteURL ("https://" ++ host ++ "/" ++ org ++ "/" ++ repo ++ ".git") ∧
    (∀ org' repo' : String, org ++ "/" ++ repo ++ ".git" ≠ org' ++ "/" ++ repo' ++ ".git" →
      GetSSHRemoteURL ("git@" ++ host ++ ":" ++ org ++ "/" ++ repo ++ ".git") ≠
        GetSSHRemoteURL ("https://" ++ host ++ "/" ++ org' ++ "/" ++ repo' ++ ".git")) := by
  obtain ⟨h1, h2⟩ := knownHosts_chars host hh
  have a1 := GetSSHRemoteURL_https host (org ++ ("/" ++ (repo ++ ".git"))) h1 h2
  have a2 := GetSSHRemoteURL_git host (org ++ ("/" ++ (repo ++ ".git"))) h1 h2
  have a3 := GetSSHRemoteURL_user user host (org ++ ("/" ++ (repo ++ ".git"))) hu h1 h2
  have a4 := GetSSHRemoteURL_ssh (host ++ (":" ++ (org ++ ("/" ++ (repo ++ ".git")))))
  simp only [String.append_assoc]
  refine ⟨a1, a2, a3, a4, a4.trans a1.symm, ?_⟩
  intro org' repo' hne heq
  rw [a4, GetSSHRemoteURL_https host (org' ++ ("/" ++ (repo' ++ ".git"))) h1 h2] at heq
  exact hne (string_append_cancel_left _ _ _ (string_append_cancel_left _ _ _
    (string_append_cancel_left _ _ _ heq)))

/-- Instance for C9: the Bitbucket variation of the test. -/
theorem GetSSHRemoteURL_normalises_witness :
    "bitbucket.org" ∈ knownHosts ∧ '/' ∉ "ubclaunchpad".toList ∧
    GetSSHRemoteURL "https://ubclaunchpad@bitbucket.org/ubclaunchpad/inertia.git" =
      "git@bitbucket.org:ubclaunchpad/inertia.git" ∧
    GetSSHRemoteURL "https://bitbucket.org/ubclaunchpad/inertia.git" =
      "git@bitbucket.org:ubclaunchpad/inertia.git" := by
  have h := GetSSHRemoteURL_normalises "bitbucket.org" "ubclaunchpad" "ubclaunchpad" "inertia"
    (by decide) (by decide)
  exact ⟨by decide, by decide, h.2.2.1, h.1⟩

/-! ## Claims on `GenerateToken` -/

/-- C7, as stated, fails: the token `TestGenerateToken` expects for the key
`very_sekrit_key`, which the model of `GenerateToken` returns, has the payload
segment `e30`; decoded it is the empty object, with no subject and no expiry. -/
theorem testToken_claims_empty :
    GenerateToken testPrivateKey = Except.ok testToken ∧
    tokenClaims testToken = some ['\x7b', '\x7d'] ∧
    ¬ (∃ claims, tokenClaims testToken = some claims ∧
        hasClaim "sub" claims = true ∧ hasClaim "exp" claims = true) := by
  have h : tokenClaims testToken = some ['\x7b', '\x7d'] := by
    rw [← signedString_test]; exact tokenClaims_signedString _
  refine ⟨congrArg Except.ok signedString_test, h, ?_⟩
  rintro ⟨claims, hc, hs, -⟩
  rw [h] at hc
  cases hc
  revert hs
  decide

/-- C7, amended: for every signing key `GenerateToken` returns a token whose
payload segment is `e30`, the base64url encoding of the empty claims object: no
subject and no expiry are embedded. -/
theorem GenerateToken_claims_empty (key : List Byte) :
    ∃ token, GenerateToken key = Except.ok token ∧
      payloadSegment token = ['e', '3', '0'] ∧
      tokenClaims token = some ['\x7b', '\x7d'] ∧
      hasClaim "sub" ['\x7b', '\x7d'] = false ∧ hasClaim "exp" ['\x7b', '\x7d'] = false :=
  ⟨signedString key, rfl, payloadSegment_signedString key, tokenClaims_signedString key,
    by decide, by decide⟩

/-- C8, as stated, fails: the key `very_sekrit_key` and the same key followed by a
zero byte are different keys with the same token. -/
theorem GenerateToken_zero_byte_collision :
    testPrivateKey ≠ testPrivateKey ++ [0] ∧
    GenerateToken testPrivateKey = GenerateToken (testPrivateKey ++ [0]) := by
  refine ⟨by decide, ?_⟩
  exact congrArg Except.ok (signedString_zero testPrivateKey (by decide)).symm

/-- C8, amended: `GenerateToken` returns a token for every key, equal keys give equal
tokens, the token for `very_sekrit_key` is the fixed string of the test, and the
token for `another_sekrit_key` differs from it; different keys need not give
different tokens: a key of fewer than 64 bytes and the same key followed by a zero
byte give the same token. -/
theorem GenerateToken_total_and_fixed :
    (∀ key, ∃ token, GenerateToken key = Except.ok token) ∧
    (∀ key key', key = key' → GenerateToken key = GenerateToken key') ∧
    GenerateToken testPrivateKey = Except.ok testToken ∧
    GenerateToken otherPrivateKey ≠ GenerateToken testPrivateKey ∧
    (∀ key : List Byte, key.length < 64 →
      GenerateToken (key ++ [0]) = GenerateToken key) := by
  refine ⟨fun key => ⟨signedString key, rfl⟩, fun _ _ h => congrArg GenerateToken h,
    congrArg Except.ok signedString_test, ?_, ?_⟩
  · intro h
    exact signedString_other (Except.ok.inj h)
  · intro key h
    exact congrArg Except.ok (signedString_zero key h)

end Inertia
